import Mathlib

/-!
Shallow embedding of the QuickNote_BE pipeline orchestrator.

Source files embedded here:
  - src/app/services/summarize.py   (run_pipeline, lines 23-159)
  - src/app/pipelines/summarizer.py (class Transcriber: transcribe, language_rules)

External collaborators (whisper, the media converter, the enhancer, the
generative model, the summarizer, the JSON logger, the filesystem) are
modelled as an oracle environment `Env` recording, for one run, what each
external call would return.  The orchestrator branching, the audit events it
emits and the collaborator calls it makes are translated line by line from
the source.  A Python `return` of a dict is `Except.ok` of an association
list; an uncaught Python exception is `Except.error` with the exception text.
-/

/-- Model of a `pathlib.Path` value as the pipeline uses it: a directory
part, a stem and a suffix (the suffix carries the leading dot, as in
`pathlib`).  `name = stem + suffix`, `str(path) = dir + stem + suffix`. -/
structure PyPath where
  dir : String
  stem : String
  suffix : String
deriving DecidableEq, Repr

def PyPath.name (p : PyPath) : String := p.stem ++ p.suffix

def PyPath.toStr (p : PyPath) : String := p.dir ++ p.stem ++ p.suffix

/-- Values stored in the dicts that run_pipeline returns. -/
inductive PyValue where
  | str (s : String)
  | strList (l : List String)
deriving DecidableEq, Repr

/-- A Python dict, as an association list in insertion order. -/
abbrev PyDict := List (String × PyValue)

/-- One audit record appended by `logger.log(stage, severity, message, ...)`
(src/app/helper JSONLogger; the keyword fields are not modelled). -/
structure Event where
  stage : String
  severity : String
  message : String
deriving DecidableEq, Repr

/-- One outward call made by run_pipeline, in order: filesystem writes,
collaborator invocations and the audit-log save.  Arguments that the claims
inspect (the audio artifact handed to a collaborator, the cluster map handed
to summarization) are carried on the constructor. -/
inductive Call where
  | mkdirAudio
  | convertVideo (src dst : PyPath)
  | convertAudio (src dst : PyPath)
  | enhance (path : PyPath) (aggressive : Bool)
  | modelInit
  | transcribe (path : PyPath)
  | languageRules
  | chunkText
  | clusterChunks (chunks : List String)
  | getFinalSummary (clusters : List (Nat × List String))
  | save
deriving DecidableEq, Repr

/-- The keyword arguments of run_pipeline (summarize.py lines 23-31). -/
structure Args where
  input_file : PyPath
  denoise : Bool
  aggressive_denoise : Bool
  force_wav : Bool
  transcriber_model : String
  chunk_size : Nat
  language : Option String
deriving Repr

/-- Oracle environment: what each external collaborator returns during this
run.  `none` is the Python `None` failure signal; `Except.error e` is a
raised exception with text `e`. -/
structure Env where
  fileExists : Bool
  convertVideo : Option Unit
  convertAudio : Option Unit
  enhance : Option PyPath
  modelInit : Except String Unit
  whisperCall : Except String (String × String)
  genContent : Except String String
  chunkText : List String
  clusterChunks : List (Nat × List String)
  clusterSummaries : List String
  finalSummary : String
  cleanupFail : List (Option String)
deriving Repr

/-- Transcriber.transcribe (summarizer.py lines 15-35): on success the
whisper call yields `(result.text, result.language)` and the method returns
that pair; every raised exception (FileNotFoundError included) is caught and
the method returns the bare `None`. -/
def Transcriber.transcribe (whisperCall : Except String (String × String)) :
    Option (String × String) :=
  match whisperCall with
  | Except.ok (text, lang) => some (text, lang)
  | Except.error _ => none

/-- Python str.strip with no argument: drop leading and trailing
whitespace. -/
def pyStrip (s : String) : String :=
  ⟨((s.data.dropWhile Char.isWhitespace).reverse.dropWhile Char.isWhitespace).reverse⟩

/-- Transcriber.language_rules (summarizer.py lines 37-52): builds a prompt,
calls the generative model and returns `response.text.strip()`; any raised
exception is caught and the original transcript is returned unchanged. -/
def Transcriber.language_rules (genContent : Except String String)
    (transcript : String) (language : String) : String :=
  match genContent with
  | Except.ok responseText => pyStrip responseText
  | Except.error _ => transcript

/-- State threaded between the orchestrator stages: the audit events so far,
the outward calls so far, and the current audio artifact path. -/
structure StageState where
  events : List Event
  calls : List Call
  audio_path : PyPath
deriving Repr

/-- Terminal observation of one run: the returned dict (or the uncaught
exception), the full audit event list, and the outward calls in order. -/
structure RunOutput where
  result : Except String PyDict
  events : List Event
  calls : List Call
deriving Repr

/-- Python str.lower, as used on file suffixes at summarize.py line 46:
character-wise case folding (`Char.toLower` lowers the ASCII uppercase
range, which covers every supported extension). -/
def pyLower (s : String) : String := ⟨s.data.map Char.toLower⟩

/-- summarize.py line 35. -/
def type_supported : List String :=
  [".mp4", ".mkv", ".mov", ".mp3", ".wav", ".m4a", ".flac", ".ogg"]

/-- The video extensions tested at summarize.py line 54. -/
def video_types : List String := [".mp4", ".mkv", ".mov"]

/-- The audio extensions tested at summarize.py line 66. -/
def audio_types : List String := [".mp3", ".wav", ".m4a", ".flac", ".ogg"]

/-- summarize.py lines 32-80: logger setup, the INITIALIZATION event, input
validation, and media normalization.  `Sum.inl` is an early `return`;
`Sum.inr` is the state handed to the following stages.  The source tests the
audio branch with an elif on the audio extension list; after validation the
suffix is in `type_supported`, so not being a video extension puts it in
`audio_types` (lemma `supported_not_video_mem_audio` below). -/
def normalizeStage (args : Args) (env : Env) : Sum RunOutput StageState :=
  let input_file := args.input_file
  let ev0 : List Event :=
    [⟨"INITIALIZATION", "INFO", "Starting audio/video processing pipeline"⟩]
  if env.fileExists = false then
    Sum.inl
      { result := Except.ok [("error", PyValue.str ("File not found: " ++ input_file.toStr))],
        events := ev0 ++ [⟨"FILE_VALIDATION", "ERROR", "Input file not found: " ++ input_file.toStr⟩],
        calls := [] }
  else
    let input_type := pyLower input_file.suffix
    if input_type ∈ type_supported then
      let ev1 := ev0 ++
        [⟨"FILE_VALIDATION", "SUCCESS", "Input file validated"⟩,
         ⟨"AUDIO_CONVERSION", "INFO", "Starting audio format standardization"⟩]
      if input_type ∈ video_types then
        let audio_path : PyPath := ⟨"./data/audio/", input_file.stem, ".wav"⟩
        let ev2 := ev1 ++
          [⟨"VIDEO_PROCESSING", "INFO", "Processing video file: \x27" ++ input_file.name ++ "\x27"⟩]
        let cs2 : List Call := [Call.mkdirAudio, Call.convertVideo input_file audio_path]
        match env.convertVideo with
        | none =>
          Sum.inl
            { result := Except.ok [("error", PyValue.str "Video conversion failed")],
              events := ev2 ++ [⟨"VIDEO_PROCESSING", "ERROR", "Video conversion failed"⟩],
              calls := cs2 }
        | some _ =>
          Sum.inr
            { events := ev2 ++ [⟨"VIDEO_PROCESSING", "SUCCESS", "Video converted to audio"⟩],
              calls := cs2, audio_path := audio_path }
      else
        let ev2 := ev1 ++
          [⟨"AUDIO_PROCESSING", "INFO", "Processing audio file: \x27" ++ input_file.name ++ "\x27"⟩]
        if input_type ≠ ".wav" ∨ args.force_wav = true then
          let audio_path : PyPath := ⟨"./data/audio/", input_file.stem ++ "_standardized", ".wav"⟩
          let cs2 : List Call := [Call.mkdirAudio, Call.convertAudio input_file audio_path]
          match env.convertAudio with
          | none =>
            Sum.inr
              { events := ev2 ++
                  [⟨"AUDIO_PROCESSING", "WARNING", "Audio format conversion failed. Using original file."⟩],
                calls := cs2, audio_path := input_file }
          | some _ =>
            Sum.inr
              { events := ev2 ++ [⟨"AUDIO_PROCESSING", "SUCCESS", "Audio format standardized"⟩],
                calls := cs2, audio_path := audio_path }
        else
          Sum.inr
            { events := ev2 ++
                [⟨"AUDIO_PROCESSING", "INFO", "Using WAV file directly: " ++ input_file.name⟩],
              calls := [], audio_path := input_file }
    else
      Sum.inl
        { result := Except.ok [("error", PyValue.str ("Unsupported file type: " ++ input_type))],
          events := ev0 ++ [⟨"FILE_VALIDATION", "ERROR", "Unsupported file type: " ++ input_type⟩],
          calls := [] }

/-- summarize.py lines 82-91: the optional enhancement gate.  On failure the
audio artifact is left unchanged; this stage never returns early. -/
def enhanceStage (args : Args) (env : Env) (st : StageState) : StageState :=
  if args.denoise = true ∨ args.aggressive_denoise = true then
    let ev := st.events ++ [⟨"AUDIO_ENHANCEMENT", "INFO", "Starting audio enhancement"⟩]
    let cs := st.calls ++ [Call.enhance st.audio_path args.aggressive_denoise]
    match env.enhance with
    | some enhanced =>
      { events := ev ++ [⟨"AUDIO_ENHANCEMENT", "SUCCESS", "Audio enhancement completed"⟩],
        calls := cs, audio_path := enhanced }
    | none =>
      { events := ev ++
          [⟨"AUDIO_ENHANCEMENT", "ERROR", "Audio enhancement failed. Proceeding with original audio."⟩],
        calls := cs, audio_path := st.audio_path }
  else
    { st with events := st.events ++
        [⟨"AUDIO_ENHANCEMENT", "INFO", "Audio enhancement skipped by user choice"⟩] }

/-- summarize.py lines 93-100: construction of the Transcriber and the
Summarizer inside a try block; a raised exception is caught and turned into
the model-initialization error return. -/
def modelInitStage (env : Env) (st : StageState) : Sum RunOutput StageState :=
  let ev := st.events ++ [⟨"MODEL_INIT", "INFO", "Initializing AI models"⟩]
  let cs := st.calls ++ [Call.modelInit]
  match env.modelInit with
  | Except.error e =>
    Sum.inl
      { result := Except.ok [("error", PyValue.str ("Model initialization failed: " ++ e))],
        events := ev ++ [⟨"MODEL_INIT", "ERROR", "Initialization error: " ++ e⟩],
        calls := cs }
  | Except.ok _ =>
    Sum.inr
      { events := ev ++ [⟨"MODEL_INIT", "SUCCESS", "AI models initialized successfully"⟩],
        calls := cs, audio_path := st.audio_path }

/-- summarize.py lines 102-114: transcription and correction.  Line 104
unpacks the return of Transcriber.transcribe into two names; when that
method returns the bare `None`, the unpacking raises an uncaught TypeError,
modelled as `Except.error`.  A falsy (empty) transcript takes the else
branch and returns the transcription-failed error dict.  On success the
correction pass of lines 109-111 runs and the corrected transcript and the
detected language are handed on. -/
def transcribeStage (env : Env) (st : StageState) :
    Sum RunOutput (StageState × String × String) :=
  let ev := st.events ++
    [⟨"TRANSCRIPTION", "INFO", "Starting transcription of: " ++ st.audio_path.name⟩]
  let cs := st.calls ++ [Call.transcribe st.audio_path]
  match Transcriber.transcribe env.whisperCall with
  | none =>
    Sum.inl
      { result := Except.error "TypeError: cannot unpack non-iterable NoneType object",
        events := ev, calls := cs }
  | some (result, detected_language) =>
    if result = "" then
      Sum.inl
        { result := Except.ok [("error", PyValue.str "Transcription failed")],
          events := ev ++ [⟨"TRANSCRIPTION", "ERROR", "Transcription failed"⟩],
          calls := cs }
    else
      let ev := ev ++
        [⟨"TRANSCRIPTION", "SUCCESS", "Transcription completed"⟩,
         ⟨"CORRECTION", "INFO", "Applying language rule correction"⟩]
      let transcript := Transcriber.language_rules env.genContent result detected_language
      let ev := ev ++ [⟨"CORRECTION", "SUCCESS", "Language correction applied"⟩]
      Sum.inr
        ({ events := ev, calls := cs ++ [Call.languageRules], audio_path := st.audio_path },
         transcript, detected_language)

/-- summarize.py line 143. -/
def temp_folders : List String := ["data/audio/enhanced", "data/temp", "data/audio"]

/-- summarize.py lines 142-151: per transient folder, a deletion failure is
caught and logged as a CLEANUP warning; a folder that is cleaned without an
exception emits no event at all. -/
def cleanupEvents (cleanupFail : List (Option String)) : List Event :=
  (temp_folders.zip cleanupFail).filterMap fun fe =>
    match fe.2 with
    | some e => some ⟨"CLEANUP", "WARNING", "Failed to clean up " ++ fe.1 ++ ": " ++ e⟩
    | none => none

/-- summarize.py lines 116-159: chunking, the clustering decision at line
124 (`len(chunks) > 7`), summarization, the audit-log save, cleanup, and the
success return. -/
def chunkStage (env : Env) (st : StageState) (transcript detected_language : String) :
    RunOutput :=
  let ev := st.events ++
    [⟨"TEXT_PROCESSING", "INFO", "Starting text processing and summarization"⟩]
  let chunks := env.chunkText
  let cs := st.calls ++ [Call.chunkText]
  let ev := ev ++ [⟨"TEXT_CHUNKING", "SUCCESS", "Text split into chunks"⟩]
  let step :=
    if chunks.length > 7 then
      (env.clusterChunks,
       ev ++ [⟨"CLUSTERING", "INFO", "Clustering chunks by topic"⟩,
              ⟨"CLUSTERING", "SUCCESS", "Topic clustering completed"⟩],
       cs ++ [Call.clusterChunks chunks])
    else
      (([(0, chunks)] : List (Nat × List String)),
       ev ++ [⟨"CLUSTERING", "INFO", "Few Chunks - no clustering needed"⟩],
       cs)
  let clusters := step.1
  let ev := step.2.1 ++ [⟨"SUMMARIZATION", "INFO", "Generating comprehensive summary"⟩]
  let cs := step.2.2 ++ [Call.getFinalSummary clusters]
  let cluster_summaries := env.clusterSummaries
  let final_summary := env.finalSummary
  let ev := ev ++
    [⟨"SUMMARIZATION", "SUCCESS", "Final summary generated"⟩,
     ⟨"PIPELINE_COMPLETE", "SUCCESS", "Pipeline completed successfully"⟩]
  let cs := cs ++ [Call.save]
  let ev := ev ++ cleanupEvents env.cleanupFail
  { result := Except.ok
      [("summary", PyValue.str final_summary),
       ("transcript", PyValue.str transcript),
       ("detected_language", PyValue.str detected_language),
       ("chunks", PyValue.strList chunks),
       ("cluster_summaries", PyValue.strList cluster_summaries)],
    events := ev, calls := cs }

/-- The stages after normalization and enhancement, composed. -/
def pipelineTail (env : Env) (st : StageState) : RunOutput :=
  match modelInitStage env st with
  | Sum.inl out => out
  | Sum.inr st2 =>
    match transcribeStage env st2 with
    | Sum.inl out => out
    | Sum.inr (st3, transcript, detected_language) =>
      chunkStage env st3 transcript detected_language

/-- run_pipeline (summarize.py lines 23-159), as the composition of its
stages. -/
def run_pipeline (args : Args) (env : Env) : RunOutput :=
  match normalizeStage args env with
  | Sum.inl out => out
  | Sum.inr st => pipelineTail env (enhanceStage args env st)

/-! Observables and closed-form characterizations. -/

/-- Keys of a returned dict, in insertion order. -/
def dictKeys (d : PyDict) : List String := d.map Prod.fst

/-- The five keys of the success return (summarize.py lines 153-159). -/
def success_keys : List String :=
  ["summary", "transcript", "detected_language", "chunks", "cluster_summaries"]

/-- How many times the audit logger save ran during the run. -/
def saveCount (o : RunOutput) : Nat :=
  (o.calls.filter fun c => decide (c = Call.save)).length

/-- Some event of the given stage name was logged. -/
def hasStage (evs : List Event) (s : String) : Prop := ∃ ev ∈ evs, ev.stage = s

/-- The audit stage under which each collaborator call is logged (the
mkdir filesystem call has none of its own). -/
def callStage : Call → Option String
  | Call.convertVideo _ _ => some "VIDEO_PROCESSING"
  | Call.convertAudio _ _ => some "AUDIO_PROCESSING"
  | Call.enhance _ _ => some "AUDIO_ENHANCEMENT"
  | Call.modelInit => some "MODEL_INIT"
  | Call.transcribe _ => some "TRANSCRIPTION"
  | Call.languageRules => some "CORRECTION"
  | Call.chunkText => some "TEXT_CHUNKING"
  | Call.clusterChunks _ => some "CLUSTERING"
  | Call.getFinalSummary _ => some "SUMMARIZATION"
  | Call.save => some "PIPELINE_COMPLETE"
  | Call.mkdirAudio => none

/-- The CLEANUP events of a run, in order. -/
def cleanupLogged (o : RunOutput) : List Event :=
  o.events.filter fun ev => decide (ev.stage = "CLEANUP")

/-- The cluster map handed to summarization (summarize.py lines 123-131). -/
def clustersOf (env : Env) : List (Nat × List String) :=
  if env.chunkText.length > 7 then env.clusterChunks else [(0, env.chunkText)]

/-- The success dict of summarize.py lines 153-159, given the raw transcript
and detected language produced by transcription. -/
def successDict (env : Env) (rawText detected : String) : PyDict :=
  [("summary", PyValue.str env.finalSummary),
   ("transcript", PyValue.str (Transcriber.language_rules env.genContent rawText detected)),
   ("detected_language", PyValue.str detected),
   ("chunks", PyValue.strList env.chunkText),
   ("cluster_summaries", PyValue.strList env.clusterSummaries)]

/-- Closed form of the value produced by the stages from model
initialization on; it depends only on the environment. -/
def tailResult (env : Env) : Except String PyDict :=
  match env.modelInit with
  | Except.error e => Except.ok [("error", PyValue.str ("Model initialization failed: " ++ e))]
  | Except.ok _ =>
    match Transcriber.transcribe env.whisperCall with
    | none => Except.error "TypeError: cannot unpack non-iterable NoneType object"
    | some (result, detected) =>
      if result = "" then Except.ok [("error", PyValue.str "Transcription failed")]
      else Except.ok (successDict env result detected)

/-- Closed form of the calls made from model initialization on. -/
def tailCalls (env : Env) (audio : PyPath) : List Call :=
  [Call.modelInit] ++
  match env.modelInit with
  | Except.error _ => []
  | Except.ok _ =>
    [Call.transcribe audio] ++
    match Transcriber.transcribe env.whisperCall with
    | none => []
    | some (result, _) =>
      if result = "" then []
      else
        [Call.languageRules, Call.chunkText] ++
        (if env.chunkText.length > 7 then [Call.clusterChunks env.chunkText] else []) ++
        [Call.getFinalSummary (clustersOf env), Call.save]

/-- Closed form of the events logged from model initialization on. -/
def tailEvents (env : Env) (audio : PyPath) : List Event :=
  [⟨"MODEL_INIT", "INFO", "Initializing AI models"⟩] ++
  match env.modelInit with
  | Except.error e => [⟨"MODEL_INIT", "ERROR", "Initialization error: " ++ e⟩]
  | Except.ok _ =>
    [⟨"MODEL_INIT", "SUCCESS", "AI models initialized successfully"⟩,
     ⟨"TRANSCRIPTION", "INFO", "Starting transcription of: " ++ audio.name⟩] ++
    match Transcriber.transcribe env.whisperCall with
    | none => []
    | some (result, _) =>
      if result = "" then [⟨"TRANSCRIPTION", "ERROR", "Transcription failed"⟩]
      else
        [⟨"TRANSCRIPTION", "SUCCESS", "Transcription completed"⟩,
         ⟨"CORRECTION", "INFO", "Applying language rule correction"⟩,
         ⟨"CORRECTION", "SUCCESS", "Language correction applied"⟩,
         ⟨"TEXT_PROCESSING", "INFO", "Starting text processing and summarization"⟩,
         ⟨"TEXT_CHUNKING", "SUCCESS", "Text split into chunks"⟩] ++
        (if env.chunkText.length > 7 then
           [⟨"CLUSTERING", "INFO", "Clustering chunks by topic"⟩,
            ⟨"CLUSTERING", "SUCCESS", "Topic clustering completed"⟩]
         else [⟨"CLUSTERING", "INFO", "Few Chunks - no clustering needed"⟩]) ++
        [⟨"SUMMARIZATION", "INFO", "Generating comprehensive summary"⟩,
         ⟨"SUMMARIZATION", "SUCCESS", "Final summary generated"⟩,
         ⟨"PIPELINE_COMPLETE", "SUCCESS", "Pipeline completed successfully"⟩] ++
        cleanupEvents env.cleanupFail

/-- Closed form of the events appended by the enhancement gate. -/
def enhanceEvents (args : Args) (env : Env) : List Event :=
  if args.denoise = true ∨ args.aggressive_denoise = true then
    [⟨"AUDIO_ENHANCEMENT", "INFO", "Starting audio enhancement"⟩] ++
    (match env.enhance with
     | some _ => [⟨"AUDIO_ENHANCEMENT", "SUCCESS", "Audio enhancement completed"⟩]
     | none =>
       [⟨"AUDIO_ENHANCEMENT", "ERROR", "Audio enhancement failed. Proceeding with original audio."⟩])
  else [⟨"AUDIO_ENHANCEMENT", "INFO", "Audio enhancement skipped by user choice"⟩]

/-- Closed form of the calls appended by the enhancement gate. -/
def enhanceCalls (args : Args) (audio : PyPath) : List Call :=
  if args.denoise = true ∨ args.aggressive_denoise = true then
    [Call.enhance audio args.aggressive_denoise]
  else []

/-- Closed form of the audio artifact after the enhancement gate. -/
def enhanceAudio (args : Args) (env : Env) (audio : PyPath) : PyPath :=
  if args.denoise = true ∨ args.aggressive_denoise = true then
    match env.enhance with
    | some p => p
    | none => audio
  else audio

/-- Closed form of the returned value of a whole run; it reads neither the
enhancement oracle nor the audio artifact, only the branching data. -/
def runResult (args : Args) (env : Env) : Except String PyDict :=
  if env.fileExists = false then
    Except.ok [("error", PyValue.str ("File not found: " ++ args.input_file.toStr))]
  else
    let input_type := pyLower args.input_file.suffix
    if input_type ∈ type_supported then
      if input_type ∈ video_types then
        match env.convertVideo with
        | none => Except.ok [("error", PyValue.str "Video conversion failed")]
        | some _ => tailResult env
      else tailResult env
    else Except.ok [("error", PyValue.str ("Unsupported file type: " ++ input_type))]

/-! Concrete fixtures used by witnesses and counterexamples. -/

/-- A small run configuration on a wav input. -/
def wavArgs : Args :=
  { input_file := ⟨"", "talk", ".wav"⟩, denoise := false, aggressive_denoise := false,
    force_wav := false, transcriber_model := "small", chunk_size := 2000, language := none }

/-- The same configuration on an mp4 input. -/
def mp4Args : Args := { wavArgs with input_file := ⟨"", "talk", ".mp4"⟩ }

/-- An environment in which every collaborator behaves. -/
def happyEnv : Env :=
  { fileExists := true, convertVideo := some (), convertAudio := some (),
    enhance := none, modelInit := Except.ok (),
    whisperCall := Except.ok ("hello world", "en"),
    genContent := Except.ok "hello world.",
    chunkText := ["hello world"], clusterChunks := [],
    clusterSummaries := ["sum"], finalSummary := "final",
    cleanupFail := [none, none, none] }

/-- The input file does not exist. -/
def envMissing : Env := { happyEnv with fileExists := false }

/-- The whisper call raises, so Transcriber.transcribe returns None. -/
def envWhisperRaises : Env := { happyEnv with whisperCall := Except.error "whisper raised" }

/-- Transcription succeeds but yields the empty text. -/
def envEmptyTranscript : Env := { happyEnv with whisperCall := Except.ok ("", "en") }

/-- The wav configuration with the plain denoise flag set. -/
def denoiseArgs : Args := { wavArgs with denoise := true }

/-- The configuration on an mp3 input. -/
def mp3Args : Args := { wavArgs with input_file := ⟨"", "talk", ".mp3"⟩ }

/-- The configuration on an input whose suffix differs from a supported one
only in letter case. -/
def upperWavArgs : Args := { wavArgs with input_file := ⟨"", "talk", ".WAV"⟩ }

/-- Audio standardization returns None. -/
def envAudioConvFail : Env := { happyEnv with convertAudio := none }

/-- Video conversion returns None. -/
def envVideoConvFail : Env := { happyEnv with convertVideo := none }

/-- Eight chunks, so topic clustering runs. -/
def envManyChunks : Env :=
  { happyEnv with chunkText := ["c1", "c2", "c3", "c4", "c5", "c6", "c7", "c8"],
                  clusterChunks := [(0, ["c1", "c2", "c3", "c4"]), (1, ["c5", "c6", "c7", "c8"])] }

/-- Seven chunks, exactly at the threshold, so clustering is skipped. -/
def envSevenChunks : Env :=
  { happyEnv with chunkText := ["c1", "c2", "c3", "c4", "c5", "c6", "c7"] }

/-! Named normalization outcomes, used to enumerate the cases of
`normalizeStage`. -/

/-- The INITIALIZATION event of summarize.py lines 36-40. -/
def initEvent : Event :=
  ⟨"INITIALIZATION", "INFO", "Starting audio/video processing pipeline"⟩

/-- The events present after successful validation (lines 51-52). -/
def validatedEvents : List Event :=
  [initEvent,
   ⟨"FILE_VALIDATION", "SUCCESS", "Input file validated"⟩,
   ⟨"AUDIO_CONVERSION", "INFO", "Starting audio format standardization"⟩]

/-- The converted-audio target path of line 58. -/
def videoOutPath (p : PyPath) : PyPath := ⟨"./data/audio/", p.stem, ".wav"⟩

/-- The standardized-audio target path of line 71. -/
def stdOutPath (p : PyPath) : PyPath := ⟨"./data/audio/", p.stem ++ "_standardized", ".wav"⟩

/-- Early return of lines 42-44. -/
def notFoundOut (args : Args) : RunOutput :=
  { result := Except.ok [("error", PyValue.str ("File not found: " ++ args.input_file.toStr))],
    events := [initEvent,
               ⟨"FILE_VALIDATION", "ERROR", "Input file not found: " ++ args.input_file.toStr⟩],
    calls := [] }

/-- Early return of lines 46-49. -/
def unsupportedOut (args : Args) : RunOutput :=
  { result := Except.ok
      [("error", PyValue.str ("Unsupported file type: " ++ pyLower args.input_file.suffix))],
    events := [initEvent,
               ⟨"FILE_VALIDATION", "ERROR",
                "Unsupported file type: " ++ pyLower args.input_file.suffix⟩],
    calls := [] }

/-- Early return of lines 61-63. -/
def videoFailOut (args : Args) : RunOutput :=
  { result := Except.ok [("error", PyValue.str "Video conversion failed")],
    events := validatedEvents ++
      [⟨"VIDEO_PROCESSING", "INFO",
        "Processing video file: \x27" ++ args.input_file.name ++ "\x27"⟩,
       ⟨"VIDEO_PROCESSING", "ERROR", "Video conversion failed"⟩],
    calls := [Call.mkdirAudio, Call.convertVideo args.input_file (videoOutPath args.input_file)] }

/-- State after lines 54-64 succeed on a video input. -/
def videoOkState (args : Args) : StageState :=
  { events := validatedEvents ++
      [⟨"VIDEO_PROCESSING", "INFO",
        "Processing video file: \x27" ++ args.input_file.name ++ "\x27"⟩,
       ⟨"VIDEO_PROCESSING", "SUCCESS", "Video converted to audio"⟩],
    calls := [Call.mkdirAudio, Call.convertVideo args.input_file (videoOutPath args.input_file)],
    audio_path := videoOutPath args.input_file }

/-- State after lines 68-75 degrade on an audio input whose standardization
returned None: the artifact is the original input file. -/
def audioFailState (args : Args) : StageState :=
  { events := validatedEvents ++
      [⟨"AUDIO_PROCESSING", "INFO",
        "Processing audio file: \x27" ++ args.input_file.name ++ "\x27"⟩,
       ⟨"AUDIO_PROCESSING", "WARNING", "Audio format conversion failed. Using original file."⟩],
    calls := [Call.mkdirAudio, Call.convertAudio args.input_file (stdOutPath args.input_file)],
    audio_path := args.input_file }

/-- State after lines 68-77 standardize an audio input. -/
def audioOkState (args : Args) : StageState :=
  { events := validatedEvents ++
      [⟨"AUDIO_PROCESSING", "INFO",
        "Processing audio file: \x27" ++ args.input_file.name ++ "\x27"⟩,
       ⟨"AUDIO_PROCESSING", "SUCCESS", "Audio format standardized"⟩],
    calls := [Call.mkdirAudio, Call.convertAudio args.input_file (stdOutPath args.input_file)],
    audio_path := stdOutPath args.input_file }

/-- State after lines 78-80 use a wav input directly. -/
def wavDirectState (args : Args) : StageState :=
  { events := validatedEvents ++
      [⟨"AUDIO_PROCESSING", "INFO",
        "Processing audio file: \x27" ++ args.input_file.name ++ "\x27"⟩,
       ⟨"AUDIO_PROCESSING", "INFO", "Using WAV file directly: " ++ args.input_file.name⟩],
    calls := [],
    audio_path := args.input_file }

/-- Position of each audit stage in the strictly forward control flow of
run_pipeline (the two normalization stages share one position, as exactly
one of them runs). -/
def stageIndex (s : String) : Nat :=
  if s = "INITIALIZATION" then 0
  else if s = "FILE_VALIDATION" then 1
  else if s = "AUDIO_CONVERSION" then 2
  else if s = "VIDEO_PROCESSING" then 3
  else if s = "AUDIO_PROCESSING" then 3
  else if s = "AUDIO_ENHANCEMENT" then 4
  else if s = "MODEL_INIT" then 5
  else if s = "TRANSCRIPTION" then 6
  else if s = "CORRECTION" then 7
  else if s = "TEXT_PROCESSING" then 8
  else if s = "TEXT_CHUNKING" then 9
  else if s = "CLUSTERING" then 10
  else if s = "SUMMARIZATION" then 11
  else if s = "PIPELINE_COMPLETE" then 12
  else 13

/-- The event stream respects the pipeline stage order: every event of a
stage precedes every event of any later stage, so the outcome events of a
stage are recorded before the next stage is attempted. -/
def stageOrdered (evs : List Event) : Prop :=
  List.Pairwise (fun a b => stageIndex a.stage ≤ stageIndex b.stage) evs

/-! Lemmas about the extension lists. -/

theorem video_mem_supported {s : String} (h : s ∈ video_types) : s ∈ type_supported := by
  simp only [video_types, List.mem_cons, List.not_mem_nil, or_false] at h
  rcases h with h | h | h <;> subst h <;> decide

theorem audio_mem_supported {s : String} (h : s ∈ audio_types) : s ∈ type_supported := by
  simp only [audio_types, List.mem_cons, List.not_mem_nil, or_false] at h
  rcases h with h | h | h | h | h <;> subst h <;> decide

theorem supported_split {s : String} (h : s ∈ type_supported) :
    s ∈ video_types ∨ s ∈ audio_types := by
  simp only [type_supported, List.mem_cons, List.not_mem_nil, or_false] at h
  rcases h with h | h | h | h | h | h | h | h <;> subst h <;> decide

theorem audio_not_video {s : String} (h : s ∈ audio_types) : s ∉ video_types := by
  simp only [audio_types, List.mem_cons, List.not_mem_nil, or_false] at h
  rcases h with h | h | h | h | h <;> subst h <;> decide

theorem supported_pyLower_fixed {s : String} (h : s ∈ type_supported) : pyLower s = s := by
  simp only [type_supported, List.mem_cons, List.not_mem_nil, or_false] at h
  rcases h with h | h | h | h | h | h | h | h <;> subst h <;> decide

/-! Closed-form characterizations of the stages. -/

theorem enhanceStage_eq (args : Args) (env : Env) (st : StageState) :
    enhanceStage args env st =
      { events := st.events ++ enhanceEvents args env,
        calls := st.calls ++ enhanceCalls args st.audio_path,
        audio_path := enhanceAudio args env st.audio_path } := by
  unfold enhanceStage enhanceEvents enhanceCalls enhanceAudio
  by_cases h : args.denoise = true ∨ args.aggressive_denoise = true
  · simp only [if_pos h]
    cases env.enhance <;> simp
  · simp [if_neg h]

theorem pipelineTail_eq (env : Env) (st : StageState) :
    pipelineTail env st =
      { result := tailResult env,
        events := st.events ++ tailEvents env st.audio_path,
        calls := st.calls ++ tailCalls env st.audio_path } := by
  unfold pipelineTail modelInitStage transcribeStage chunkStage tailResult tailEvents tailCalls clustersOf successDict
  cases hmi : env.modelInit with
  | error e => simp
  | ok u =>
    cases hw : Transcriber.transcribe env.whisperCall with
    | none => simp
    | some pr =>
      obtain ⟨result, detected⟩ := pr
      by_cases hres : result = ""
      · simp [hres]
      · by_cases hlen : env.chunkText.length > 7
        · simp [hres, hlen]
        · simp [hres, hlen]

theorem supported_not_video_mem_audio {s : String} (h : s ∈ type_supported)
    (hv : s ∉ video_types) : s ∈ audio_types := by
  rcases supported_split h with h1 | h1
  · exact absurd h1 hv
  · exact h1

theorem norm_notFound (args : Args) (env : Env) (h : env.fileExists = false) :
    normalizeStage args env = Sum.inl
      { result := Except.ok [("error", PyValue.str ("File not found: " ++ args.input_file.toStr))],
        events := [⟨"INITIALIZATION", "INFO", "Starting audio/video processing pipeline"⟩,
                   ⟨"FILE_VALIDATION", "ERROR", "Input file not found: " ++ args.input_file.toStr⟩],
        calls := [] } := by
  unfold normalizeStage
  simp [h]

theorem norm_unsupported (args : Args) (env : Env) (h1 : env.fileExists = true)
    (h2 : pyLower args.input_file.suffix ∉ type_supported) :
    normalizeStage args env = Sum.inl
      { result := Except.ok
          [("error", PyValue.str ("Unsupported file type: " ++ pyLower args.input_file.suffix))],
        events := [⟨"INITIALIZATION", "INFO", "Starting audio/video processing pipeline"⟩,
                   ⟨"FILE_VALIDATION", "ERROR",
                    "Unsupported file type: " ++ pyLower args.input_file.suffix⟩],
        calls := [] } := by
  unfold normalizeStage
  simp [h1, h2]

theorem norm_video_fail (args : Args) (env : Env) (h1 : env.fileExists = true)
    (h2 : pyLower args.input_file.suffix ∈ video_types) (h3 : env.convertVideo = none) :
    normalizeStage args env = Sum.inl
      { result := Except.ok [("error", PyValue.str "Video conversion failed")],
        events := [⟨"INITIALIZATION", "INFO", "Starting audio/video processing pipeline"⟩,
                   ⟨"FILE_VALIDATION", "SUCCESS", "Input file validated"⟩,
                   ⟨"AUDIO_CONVERSION", "INFO", "Starting audio format standardization"⟩,
                   ⟨"VIDEO_PROCESSING", "INFO",
                    "Processing video file: \x27" ++ args.input_file.name ++ "\x27"⟩,
                   ⟨"VIDEO_PROCESSING", "ERROR", "Video conversion failed"⟩],
        calls := [Call.mkdirAudio,
                  Call.convertVideo args.input_file ⟨"./data/audio/", args.input_file.stem, ".wav"⟩] } := by
  unfold normalizeStage
  simp [h1, video_mem_supported h2, h2, h3]

theorem norm_video_ok (args : Args) (env : Env) (u : Unit) (h1 : env.fileExists = true)
    (h2 : pyLower args.input_file.suffix ∈ video_types) (h3 : env.convertVideo = some u) :
    normalizeStage args env = Sum.inr
      { events := [⟨"INITIALIZATION", "INFO", "Starting audio/video processing pipeline"⟩,
                   ⟨"FILE_VALIDATION", "SUCCESS", "Input file validated"⟩,
                   ⟨"AUDIO_CONVERSION", "INFO", "Starting audio format standardization"⟩,
                   ⟨"VIDEO_PROCESSING", "INFO",
                    "Processing video file: \x27" ++ args.input_file.name ++ "\x27"⟩,
                   ⟨"VIDEO_PROCESSING", "SUCCESS", "Video converted to audio"⟩],
        calls := [Call.mkdirAudio,
                  Call.convertVideo args.input_file ⟨"./data/audio/", args.input_file.stem, ".wav"⟩],
        audio_path := ⟨"./data/audio/", args.input_file.stem, ".wav"⟩ } := by
  unfold normalizeStage
  simp [h1, video_mem_supported h2, h2, h3]

theorem norm_audio_fail (args : Args) (env : Env) (h1 : env.fileExists = true)
    (h2 : pyLower args.input_file.suffix ∈ audio_types)
    (hwf : pyLower args.input_file.suffix ≠ ".wav" ∨ args.force_wav = true)
    (h3 : env.convertAudio = none) :
    normalizeStage args env = Sum.inr
      { events := [⟨"INITIALIZATION", "INFO", "Starting audio/video processing pipeline"⟩,
                   ⟨"FILE_VALIDATION", "SUCCESS", "Input file validated"⟩,
                   ⟨"AUDIO_CONVERSION", "INFO", "Starting audio format standardization"⟩,
                   ⟨"AUDIO_PROCESSING", "INFO",
                    "Processing audio file: \x27" ++ args.input_file.name ++ "\x27"⟩,
                   ⟨"AUDIO_PROCESSING", "WARNING",
                    "Audio format conversion failed. Using original file."⟩],
        calls := [Call.mkdirAudio,
                  Call.convertAudio args.input_file
                    ⟨"./data/audio/", args.input_file.stem ++ "_standardized", ".wav"⟩],
        audio_path := args.input_file } := by
  unfold normalizeStage
  simp [h1, audio_mem_supported h2, audio_not_video h2, if_pos hwf, h3]

theorem norm_audio_ok (args : Args) (env : Env) (u : Unit) (h1 : env.fileExists = true)
    (h2 : pyLower args.input_file.suffix ∈ audio_types)
    (hwf : pyLower args.input_file.suffix ≠ ".wav" ∨ args.force_wav = true)
    (h3 : env.convertAudio = some u) :
    normalizeStage args env = Sum.inr
      { events := [⟨"INITIALIZATION", "INFO", "Starting audio/video processing pipeline"⟩,
                   ⟨"FILE_VALIDATION", "SUCCESS", "Input file validated"⟩,
                   ⟨"AUDIO_CONVERSION", "INFO", "Starting audio format standardization"⟩,
                   ⟨"AUDIO_PROCESSING", "INFO",
                    "Processing audio file: \x27" ++ args.input_file.name ++ "\x27"⟩,
                   ⟨"AUDIO_PROCESSING", "SUCCESS", "Audio format standardized"⟩],
        calls := [Call.mkdirAudio,
                  Call.convertAudio args.input_file
                    ⟨"./data/audio/", args.input_file.stem ++ "_standardized", ".wav"⟩],
        audio_path := ⟨"./data/audio/", args.input_file.stem ++ "_standardized", ".wav"⟩ } := by
  unfold normalizeStage
  simp [h1, audio_mem_supported h2, audio_not_video h2, if_pos hwf, h3]

theorem norm_wav_direct (args : Args) (env : Env) (h1 : env.fileExists = true)
    (h2 : pyLower args.input_file.suffix = ".wav") (hf : args.force_wav = false) :
    normalizeStage args env = Sum.inr
      { events := [⟨"INITIALIZATION", "INFO", "Starting audio/video processing pipeline"⟩,
                   ⟨"FILE_VALIDATION", "SUCCESS", "Input file validated"⟩,
                   ⟨"AUDIO_CONVERSION", "INFO", "Starting audio format standardization"⟩,
                   ⟨"AUDIO_PROCESSING", "INFO",
                    "Processing audio file: \x27" ++ args.input_file.name ++ "\x27"⟩,
                   ⟨"AUDIO_PROCESSING", "INFO",
                    "Using WAV file directly: " ++ args.input_file.name⟩],
        calls := [],
        audio_path := args.input_file } := by
  unfold normalizeStage
  simp [h1, h2, hf, type_supported, video_types]

theorem run_result_eq (args : Args) (env : Env) :
    (run_pipeline args env).result = runResult args env := by
  unfold run_pipeline
  cases hfe : env.fileExists with
  | false =>
    rw [norm_notFound args env hfe]
    simp [runResult, hfe]
  | true =>
    by_cases hsup : pyLower args.input_file.suffix ∈ type_supported
    · rcases supported_split hsup with hvid | haud
      · cases hcv : env.convertVideo with
        | none =>
          rw [norm_video_fail args env hfe hvid hcv]
          simp [runResult, hfe, hsup, hvid, hcv]
        | some u =>
          rw [norm_video_ok args env u hfe hvid hcv]
          simp [pipelineTail_eq, runResult, hfe, hsup, hvid, hcv]
      · have hnv := audio_not_video haud
        by_cases hwf : pyLower args.input_file.suffix ≠ ".wav" ∨ args.force_wav = true
        · cases hca : env.convertAudio with
          | none =>
            rw [norm_audio_fail args env hfe haud hwf hca]
            simp [pipelineTail_eq, runResult, hfe, hsup, hnv]
          | some u =>
            rw [norm_audio_ok args env u hfe haud hwf hca]
            simp [pipelineTail_eq, runResult, hfe, hsup, hnv]
        · push_neg at hwf
          rw [norm_wav_direct args env hfe hwf.1 (by simpa using hwf.2)]
          simp [pipelineTail_eq, runResult, hfe, hsup, hnv]
    · rw [norm_unsupported args env hfe hsup]
      simp [runResult, hfe, hsup]

theorem norm_inl_cases (args : Args) (env : Env) (out : RunOutput)
    (h : normalizeStage args env = Sum.inl out) :
    out = notFoundOut args ∨ out = unsupportedOut args ∨ out = videoFailOut args := by
  cases hfe : env.fileExists with
  | false =>
    rw [norm_notFound args env hfe] at h
    refine Or.inl ?_
    simpa [notFoundOut, initEvent] using h.symm
  | true =>
    by_cases hsup : pyLower args.input_file.suffix ∈ type_supported
    · rcases supported_split hsup with hvid | haud
      · cases hcv : env.convertVideo with
        | none =>
          rw [norm_video_fail args env hfe hvid hcv] at h
          refine Or.inr (Or.inr ?_)
          simpa [videoFailOut, validatedEvents, initEvent, videoOutPath] using h.symm
        | some u => rw [norm_video_ok args env u hfe hvid hcv] at h; exact absurd h (by simp)
      · have hnv := audio_not_video haud
        by_cases hwf : pyLower args.input_file.suffix ≠ ".wav" ∨ args.force_wav = true
        · cases hca : env.convertAudio with
          | none => rw [norm_audio_fail args env hfe haud hwf hca] at h; exact absurd h (by simp)
          | some u => rw [norm_audio_ok args env u hfe haud hwf hca] at h; exact absurd h (by simp)
        · push_neg at hwf
          rw [norm_wav_direct args env hfe hwf.1 (by simpa using hwf.2)] at h
          exact absurd h (by simp)
    · rw [norm_unsupported args env hfe hsup] at h
      refine Or.inr (Or.inl ?_)
      simpa [unsupportedOut, initEvent] using h.symm

theorem norm_inr_cases (args : Args) (env : Env) (st : StageState)
    (h : normalizeStage args env = Sum.inr st) :
    st = videoOkState args ∨ st = audioFailState args ∨ st = audioOkState args
      ∨ st = wavDirectState args := by
  cases hfe : env.fileExists with
  | false => rw [norm_notFound args env hfe] at h; exact absurd h (by simp)
  | true =>
    by_cases hsup : pyLower args.input_file.suffix ∈ type_supported
    · rcases supported_split hsup with hvid | haud
      · cases hcv : env.convertVideo with
        | none => rw [norm_video_fail args env hfe hvid hcv] at h; exact absurd h (by simp)
        | some u =>
          rw [norm_video_ok args env u hfe hvid hcv] at h
          refine Or.inl ?_
          simpa [videoOkState, validatedEvents, initEvent, videoOutPath] using h.symm
      · have hnv := audio_not_video haud
        by_cases hwf : pyLower args.input_file.suffix ≠ ".wav" ∨ args.force_wav = true
        · cases hca : env.convertAudio with
          | none =>
            rw [norm_audio_fail args env hfe haud hwf hca] at h
            refine Or.inr (Or.inl ?_)
            simpa [audioFailState, validatedEvents, initEvent, stdOutPath] using h.symm
          | some u =>
            rw [norm_audio_ok args env u hfe haud hwf hca] at h
            refine Or.inr (Or.inr (Or.inl ?_))
            simpa [audioOkState, validatedEvents, initEvent, stdOutPath] using h.symm
        · push_neg at hwf
          rw [norm_wav_direct args env hfe hwf.1 (by simpa using hwf.2)] at h
          refine Or.inr (Or.inr (Or.inr ?_))
          simpa [wavDirectState, validatedEvents, initEvent] using h.symm
    · rw [norm_unsupported args env hfe hsup] at h; exact absurd h (by simp)

theorem run_pipeline_cases (args : Args) (env : Env) :
    (∃ out, normalizeStage args env = Sum.inl out ∧ run_pipeline args env = out) ∨
    (∃ st, normalizeStage args env = Sum.inr st ∧
      run_pipeline args env =
        { result := tailResult env,
          events := st.events ++ (enhanceEvents args env ++
            tailEvents env (enhanceAudio args env st.audio_path)),
          calls := st.calls ++ (enhanceCalls args st.audio_path ++
            tailCalls env (enhanceAudio args env st.audio_path)) }) := by
  unfold run_pipeline
  cases h : normalizeStage args env with
  | inl out => exact Or.inl ⟨out, rfl, rfl⟩
  | inr st =>
    refine Or.inr ⟨st, rfl, ?_⟩
    show pipelineTail env (enhanceStage args env st) = _
    rw [enhanceStage_eq, pipelineTail_eq]
    simp

theorem enhanceCalls_save_filter (args : Args) (audio : PyPath) :
    (enhanceCalls args audio).filter (fun c => decide (c = Call.save)) = [] := by
  unfold enhanceCalls
  split <;> simp

theorem tailCalls_save_filter (env : Env) (audio : PyPath) :
    ((tailCalls env audio).filter fun c => decide (c = Call.save)).length
      = match tailResult env with
        | Except.ok d => if dictKeys d = success_keys then 1 else 0
        | Except.error _ => 0 := by
  unfold tailCalls tailResult
  cases env.modelInit with
  | error e => simp [dictKeys, success_keys]
  | ok u =>
    cases Transcriber.transcribe env.whisperCall with
    | none => simp
    | some pr =>
      obtain ⟨result, detected⟩ := pr
      by_cases hres : result = ""
      · simp [hres, dictKeys, success_keys]
      · by_cases hlen : env.chunkText.length > 7 <;>
          simp [hres, hlen, successDict, dictKeys, success_keys]

/-- C3 amended: the audit-log save runs exactly once on a run that returns
the success shape, and zero times on a run that ends in a structured error
dict or in an uncaught exception. -/
theorem C3_save_iff_success (args : Args) (env : Env) :
    saveCount (run_pipeline args env)
      = match (run_pipeline args env).result with
        | Except.ok d => if dictKeys d = success_keys then 1 else 0
        | Except.error _ => 0 := by
  rcases run_pipeline_cases args env with ⟨out, hn, hr⟩ | ⟨st, hn, hr⟩
  · rcases norm_inl_cases args env out hn with h | h | h <;> subst h <;> rw [hr] <;>
      simp [saveCount, notFoundOut, unsupportedOut, videoFailOut, dictKeys, success_keys,
            validatedEvents, videoOutPath]
  · rcases norm_inr_cases args env st hn with h | h | h | h <;> subst h <;> rw [hr] <;>
      simp [saveCount, List.filter_append, enhanceCalls_save_filter, tailCalls_save_filter,
            videoOkState, audioFailState, audioOkState, wavDirectState, videoOutPath, stdOutPath]

/-- C3 counterexample: a run on a missing input ends in a structured error
and invokes the audit-log save zero times, refuting that every run persists
its log exactly once. -/
theorem C3_error_run_saves_zero :
    saveCount (run_pipeline wavArgs envMissing) = 0
    ∧ (∃ s, (run_pipeline wavArgs envMissing).result = Except.ok [("error", PyValue.str s)]) :=
  ⟨rfl, ⟨"File not found: talk.wav", rfl⟩⟩

/-- C8: every dict returned by run_pipeline has exactly one of two shapes:
the single-field error dict, or the success dict with exactly the fields
summary, transcript, detected_language, chunks and cluster_summaries, in
that order; no mixture and no omission. -/
theorem C8_result_shapes (args : Args) (env : Env) (d : PyDict)
    (h : (run_pipeline args env).result = Except.ok d) :
    dictKeys d = ["error"] ∨ dictKeys d = success_keys := by
  rw [run_result_eq] at h
  unfold runResult tailResult at h
  by_cases hsup : pyLower args.input_file.suffix ∈ type_supported <;>
    by_cases hvid : pyLower args.input_file.suffix ∈ video_types <;>
      simp only [hsup, hvid, if_true, if_false, ite_true, ite_false] at h <;>
        repeat' split at h
  all_goals first
    | (injection h with hd; subst hd;
       simp [dictKeys, success_keys, successDict])
    | simp at h

/-- C8 witness: a fully successful concrete run returns the five-field
success dict. -/
theorem C8_result_shapes_witness :
    dictKeys [("summary", PyValue.str "final"),
              ("transcript", PyValue.str "hello world."),
              ("detected_language", PyValue.str "en"),
              ("chunks", PyValue.strList ["hello world"]),
              ("cluster_summaries", PyValue.strList ["sum"])] = ["error"]
    ∨ dictKeys [("summary", PyValue.str "final"),
                ("transcript", PyValue.str "hello world."),
                ("detected_language", PyValue.str "en"),
                ("chunks", PyValue.strList ["hello world"]),
                ("cluster_summaries", PyValue.strList ["sum"])] = success_keys :=
  C8_result_shapes wavArgs happyEnv
    [("summary", PyValue.str "final"),
     ("transcript", PyValue.str "hello world."),
     ("detected_language", PyValue.str "en"),
     ("chunks", PyValue.strList ["hello world"]),
     ("cluster_summaries", PyValue.strList ["sum"])] rfl

/-- C4: for an input path that does not exist, run_pipeline returns exactly
the file-not-found error dict, logs only the initialization and validation
events, and makes no call at all: no transient directory or file is
created and no conversion, enhancement, model initialization,
transcription, chunking or summarization happens. -/
theorem C4_missing_input (args : Args) (env : Env) (h : env.fileExists = false) :
    run_pipeline args env =
      { result := Except.ok [("error", PyValue.str ("File not found: " ++ args.input_file.toStr))],
        events := [⟨"INITIALIZATION", "INFO", "Starting audio/video processing pipeline"⟩,
                   ⟨"FILE_VALIDATION", "ERROR", "Input file not found: " ++ args.input_file.toStr⟩],
        calls := [] } := by
  unfold run_pipeline
  rw [norm_notFound args env h]

/-- C4 witness: concrete missing file talk.wav. -/
theorem C4_missing_input_witness :
    run_pipeline wavArgs envMissing =
      { result := Except.ok [("error", PyValue.str ("File not found: " ++ wavArgs.input_file.toStr))],
        events := [⟨"INITIALIZATION", "INFO", "Starting audio/video processing pipeline"⟩,
                   ⟨"FILE_VALIDATION", "ERROR",
                    "Input file not found: " ++ wavArgs.input_file.toStr⟩],
        calls := [] } :=
  C4_missing_input wavArgs envMissing rfl

/-- C9: language_rules is a total function of the generative-model outcome
(the model of the source catches every exception), and whenever that call
raises it returns the original transcript unchanged, for every transcript
and language; so the correction stage alone can never terminate a run. -/
theorem C9_language_rules_error_id (e transcript language : String) :
    Transcriber.language_rules (Except.error e) transcript language = transcript := rfl

/-- C1 as stated fails on the code: when the whisper call raises,
Transcriber.transcribe returns the bare None and the tuple unpacking at
summarize.py line 104 raises an uncaught TypeError, so the run does not
return the transcription-failed dict.  The empty-transcript half of the
claim does hold: the run returns exactly that dict and no chunking,
clustering or summarization call is made. -/
theorem C1_null_transcript_typeerror :
    (run_pipeline wavArgs envWhisperRaises).result
        = Except.error "TypeError: cannot unpack non-iterable NoneType object"
    ∧ (run_pipeline wavArgs envWhisperRaises).result
        ≠ Except.ok [("error", PyValue.str "Transcription failed")]
    ∧ (run_pipeline wavArgs envEmptyTranscript).result
        = Except.ok [("error", PyValue.str "Transcription failed")]
    ∧ (run_pipeline wavArgs envEmptyTranscript).calls
        = [Call.modelInit, Call.transcribe ⟨"", "talk", ".wav"⟩] := by
  refine ⟨rfl, ?_, rfl, rfl⟩
  intro h
  rw [show (run_pipeline wavArgs envWhisperRaises).result
        = Except.error "TypeError: cannot unpack non-iterable NoneType object" from rfl] at h
  exact Except.noConfusion h

theorem norm_calls_shape (args : Args) (env : Env) (st : StageState)
    (h : normalizeStage args env = Sum.inr st) (c : Call) (hc : c ∈ st.calls) :
    c = Call.mkdirAudio ∨ (∃ p q, c = Call.convertVideo p q) ∨ ∃ p q, c = Call.convertAudio p q := by
  rcases norm_inr_cases args env st h with h1 | h1 | h1 | h1 <;> subst h1 <;>
    simp [videoOkState, audioFailState, audioOkState, wavDirectState,
          videoOutPath, stdOutPath] at hc <;>
    rcases hc with hc | hc <;> subst hc <;> simp

theorem enhanceCalls_shape (args : Args) (audio : PyPath) (c : Call)
    (h : c ∈ enhanceCalls args audio) : ∃ p b, c = Call.enhance p b := by
  unfold enhanceCalls at h
  split at h
  · simp at h; subst h; exact ⟨audio, args.aggressive_denoise, rfl⟩
  · simp at h

theorem enhanceCalls_flags (args : Args) (audio : PyPath) (c : Call)
    (h : c ∈ enhanceCalls args audio) :
    args.denoise = true ∨ args.aggressive_denoise = true := by
  unfold enhanceCalls at h
  split at h
  · assumption
  · simp at h

theorem tailCalls_no_enhance (env : Env) (audio p : PyPath) (b : Bool) :
    Call.enhance p b ∉ tailCalls env audio := by
  unfold tailCalls
  cases env.modelInit with
  | error e => simp
  | ok u =>
    cases Transcriber.transcribe env.whisperCall with
    | none => simp
    | some pr =>
      obtain ⟨result, detected⟩ := pr
      by_cases hres : result = ""
      · simp [hres]
      · by_cases hlen : env.chunkText.length > 7 <;> simp [hres, hlen]

theorem tailCalls_cluster_mem (env : Env) (audio : PyPath) (ch : List String)
    (h : Call.clusterChunks ch ∈ tailCalls env audio) :
    env.chunkText.length > 7 ∧ ch = env.chunkText := by
  unfold tailCalls at h
  cases hmi : env.modelInit with
  | error e => rw [hmi] at h; simp at h
  | ok u =>
    rw [hmi] at h
    cases hw : Transcriber.transcribe env.whisperCall with
    | none => rw [hw] at h; simp at h
    | some pr =>
      rw [hw] at h
      obtain ⟨result, detected⟩ := pr
      by_cases hres : result = ""
      · simp [hres] at h
      · by_cases hlen : env.chunkText.length > 7
        · simp [hres, hlen] at h
          exact ⟨hlen, h⟩
        · simp [hres, hlen] at h

theorem tailCalls_chunkText_mem (env : Env) (audio : PyPath)
    (h : Call.chunkText ∈ tailCalls env audio) :
    (env.chunkText.length > 7 → Call.clusterChunks env.chunkText ∈ tailCalls env audio)
    ∧ (¬env.chunkText.length > 7 →
        Call.getFinalSummary [(0, env.chunkText)] ∈ tailCalls env audio) := by
  unfold tailCalls at h ⊢
  cases hmi : env.modelInit with
  | error e => rw [hmi] at h; simp at h
  | ok u =>
    rw [hmi] at h
    cases hw : Transcriber.transcribe env.whisperCall with
    | none => rw [hw] at h; simp at h
    | some pr =>
      rw [hw] at h
      obtain ⟨result, detected⟩ := pr
      by_cases hres : result = ""
      · simp [hres] at h
      · by_cases hlen : env.chunkText.length > 7
        · exact ⟨fun _ => by simp [hmi, hw, hres, hlen], fun h2 => absurd hlen h2⟩
        · exact ⟨fun h2 => absurd h2 hlen,
                 fun _ => by simp [hmi, hw, hres, hlen, clustersOf]⟩

/-- C5: the topic-clustering collaborator is invoked exactly when the chunk
count exceeds 7; a clustering call always receives the full chunk list, and
when clustering is skipped the summarization stage receives exactly the
single synthetic cluster map with id 0 holding all chunks in order. -/
theorem C5_cluster_threshold (args : Args) (env : Env) :
    (∀ ch, Call.clusterChunks ch ∈ (run_pipeline args env).calls →
        env.chunkText.length > 7 ∧ ch = env.chunkText)
    ∧ (Call.chunkText ∈ (run_pipeline args env).calls →
        (env.chunkText.length > 7 →
            Call.clusterChunks env.chunkText ∈ (run_pipeline args env).calls)
        ∧ (¬env.chunkText.length > 7 →
            Call.getFinalSummary [(0, env.chunkText)] ∈ (run_pipeline args env).calls)) := by
  rcases run_pipeline_cases args env with ⟨out, hn, hr⟩ | ⟨st, hn, hr⟩
  · rcases norm_inl_cases args env out hn with h | h | h <;> subst h <;> rw [hr] <;>
      exact ⟨fun ch hch => absurd hch
               (by simp [notFoundOut, unsupportedOut, videoFailOut, videoOutPath]),
             fun hct => absurd hct
               (by simp [notFoundOut, unsupportedOut, videoFailOut, videoOutPath])⟩
  · rw [hr]
    constructor
    · intro ch hch
      simp only [List.mem_append] at hch
      rcases hch with hch | hch | hch
      · rcases norm_calls_shape args env st hn _ hch with h1 | ⟨p, q, h1⟩ | ⟨p, q, h1⟩ <;>
          simp at h1
      · rcases enhanceCalls_shape args st.audio_path _ hch with ⟨p, b, h1⟩
        simp at h1
      · exact tailCalls_cluster_mem env _ ch hch
    · intro hct
      simp only [List.mem_append] at hct
      rcases hct with hct | hct | hct
      · rcases norm_calls_shape args env st hn _ hct with h1 | ⟨p, q, h1⟩ | ⟨p, q, h1⟩ <;>
          simp at h1
      · rcases enhanceCalls_shape args st.audio_path _ hct with ⟨p, b, h1⟩
        simp at h1
      · have h2 := tailCalls_chunkText_mem env _ hct
        exact ⟨fun h3 => by simp only [List.mem_append]; exact Or.inr (Or.inr (h2.1 h3)),
               fun h3 => by simp only [List.mem_append]; exact Or.inr (Or.inr (h2.2 h3))⟩

/-- C5 witness: with exactly 7 chunks no clustering call happens and the
synthetic single-cluster map reaches summarization; with 8 chunks the
clustering collaborator is invoked on the full chunk list. -/
theorem C5_cluster_threshold_witness :
    (Call.chunkText ∈ (run_pipeline wavArgs envSevenChunks).calls
      ∧ Call.getFinalSummary [(0, envSevenChunks.chunkText)]
          ∈ (run_pipeline wavArgs envSevenChunks).calls)
    ∧ (Call.chunkText ∈ (run_pipeline wavArgs envManyChunks).calls
      ∧ Call.clusterChunks envManyChunks.chunkText ∈ (run_pipeline wavArgs envManyChunks).calls) :=
  ⟨⟨by decide,
    ((C5_cluster_threshold wavArgs envSevenChunks).2 (by decide)).2 (by decide)⟩,
   ⟨by decide,
    ((C5_cluster_threshold wavArgs envManyChunks).2 (by decide)).1 (by decide)⟩⟩

theorem enhanceEvents_error_event (args : Args) (env : Env)
    (hflag : args.denoise = true ∨ args.aggressive_denoise = true)
    (he : env.enhance = none) :
    (⟨"AUDIO_ENHANCEMENT", "ERROR",
      "Audio enhancement failed. Proceeding with original audio."⟩ : Event)
      ∈ enhanceEvents args env := by
  unfold enhanceEvents
  rw [if_pos hflag, he]
  simp

/-- C7: the enhancer is invoked only when a denoise flag is set, and is
always invoked when a flag is set and the run reaches the enhancement gate
(the model-initialization call witnesses that); when the enhancer returns
None the run logs an AUDIO_ENHANCEMENT ERROR event, the audio artifact is
left unchanged, and the value returned by the run is identical to what it
would be were the enhancement oracle anything else, so an enhancement
failure never causes an error return. -/
theorem C7_enhancement_gate (args : Args) (env : Env) :
    ((∃ p b, Call.enhance p b ∈ (run_pipeline args env).calls) →
        args.denoise = true ∨ args.aggressive_denoise = true)
    ∧ ((args.denoise = true ∨ args.aggressive_denoise = true) →
        Call.modelInit ∈ (run_pipeline args env).calls →
        ∃ p, Call.enhance p args.aggressive_denoise ∈ (run_pipeline args env).calls)
    ∧ (env.enhance = none → ∀ st, (enhanceStage args env st).audio_path = st.audio_path)
    ∧ (run_pipeline args { env with enhance := none }).result
        = (run_pipeline args env).result
    ∧ ((args.denoise = true ∨ args.aggressive_denoise = true) →
        env.enhance = none →
        Call.modelInit ∈ (run_pipeline args env).calls →
        ∃ ev ∈ (run_pipeline args env).events,
          ev.stage = "AUDIO_ENHANCEMENT" ∧ ev.severity = "ERROR") := by
  refine ⟨?_, ?_, ?_, ?_, ?_⟩
  · rintro ⟨p, b, hmem⟩
    rcases run_pipeline_cases args env with ⟨out, hn, hr⟩ | ⟨st, hn, hr⟩
    · rcases norm_inl_cases args env out hn with h | h | h <;> subst h <;> rw [hr] at hmem <;>
        simp [notFoundOut, unsupportedOut, videoFailOut, videoOutPath] at hmem
    · rw [hr] at hmem
      simp only [List.mem_append] at hmem
      rcases hmem with hmem | hmem | hmem
      · rcases norm_calls_shape args env st hn _ hmem with h1 | ⟨a, q, h1⟩ | ⟨a, q, h1⟩ <;>
          simp at h1
      · exact enhanceCalls_flags args st.audio_path _ hmem
      · exact absurd hmem (tailCalls_no_enhance env _ p b)
  · intro hflag hmi
    rcases run_pipeline_cases args env with ⟨out, hn, hr⟩ | ⟨st, hn, hr⟩
    · rcases norm_inl_cases args env out hn with h | h | h <;> subst h <;> rw [hr] at hmi <;>
        simp [notFoundOut, unsupportedOut, videoFailOut, videoOutPath] at hmi
    · rw [hr]
      refine ⟨st.audio_path, ?_⟩
      simp only [List.mem_append]
      refine Or.inr (Or.inl ?_)
      unfold enhanceCalls
      rw [if_pos hflag]
      simp
  · intro he st
    rw [enhanceStage_eq]
    unfold enhanceAudio
    split <;> simp [he]
  · rw [run_result_eq, run_result_eq]
    exact rfl
  · intro hflag he hmc
    rcases run_pipeline_cases args env with ⟨out, hn, hr⟩ | ⟨st, hn, hr⟩
    · rcases norm_inl_cases args env out hn with h | h | h <;> subst h <;> rw [hr] at hmc <;>
        simp [notFoundOut, unsupportedOut, videoFailOut, videoOutPath] at hmc
    · rw [hr]
      refine ⟨⟨"AUDIO_ENHANCEMENT", "ERROR",
               "Audio enhancement failed. Proceeding with original audio."⟩, ?_, rfl, rfl⟩
      simp only [List.mem_append]
      exact Or.inr (Or.inl (enhanceEvents_error_event args env hflag he))

/-- C7 witness: a concrete run with the denoise flag and a failing enhancer
still invokes the enhancer, logs the enhancement ERROR event, and returns
the same value as the run with any other enhancement outcome. -/
theorem C7_enhancement_gate_witness :
    (∃ p, Call.enhance p denoiseArgs.aggressive_denoise
        ∈ (run_pipeline denoiseArgs happyEnv).calls)
    ∧ (happyEnv.enhance = none
        ∧ (enhanceStage denoiseArgs happyEnv (wavDirectState denoiseArgs)).audio_path
            = (wavDirectState denoiseArgs).audio_path)
    ∧ (run_pipeline denoiseArgs { happyEnv with enhance := none }).result
        = (run_pipeline denoiseArgs happyEnv).result
    ∧ (∃ ev ∈ (run_pipeline denoiseArgs happyEnv).events,
        ev.stage = "AUDIO_ENHANCEMENT" ∧ ev.severity = "ERROR") :=
  ⟨(C7_enhancement_gate denoiseArgs happyEnv).2.1 (Or.inl rfl) (by decide),
   ⟨rfl, (C7_enhancement_gate denoiseArgs happyEnv).2.2.1 rfl (wavDirectState denoiseArgs)⟩,
   (C7_enhancement_gate denoiseArgs happyEnv).2.2.2.1,
   (C7_enhancement_gate denoiseArgs happyEnv).2.2.2.2 (Or.inl rfl) rfl (by decide)⟩

/-- C2: normalization failure is asymmetric.  For a video input whose
conversion returns None the run returns the video-conversion error dict and
logs no TRANSCRIPTION event; for an audio input whose standardization
returns None the run logs an AUDIO_PROCESSING warning and (with no denoise
flag and a successful model initialization) still reaches transcription
with the original, unconverted input path as the audio artifact. -/
theorem C2_normalization_asymmetry (args : Args) (env : Env)
    (hex : env.fileExists = true) :
    (pyLower args.input_file.suffix ∈ video_types → env.convertVideo = none →
      (run_pipeline args env).result
          = Except.ok [("error", PyValue.str "Video conversion failed")]
      ∧ ∀ ev ∈ (run_pipeline args env).events, ev.stage ≠ "TRANSCRIPTION")
    ∧ (pyLower args.input_file.suffix ∈ audio_types →
       (pyLower args.input_file.suffix ≠ ".wav" ∨ args.force_wav = true) →
       env.convertAudio = none →
       (∃ ev ∈ (run_pipeline args env).events,
          ev.stage = "AUDIO_PROCESSING" ∧ ev.severity = "WARNING")
       ∧ (args.denoise = false → args.aggressive_denoise = false →
          env.modelInit = Except.ok () →
          Call.transcribe args.input_file ∈ (run_pipeline args env).calls
          ∧ ∃ ev ∈ (run_pipeline args env).events, ev.stage = "TRANSCRIPTION")) := by
  constructor
  · intro hvid hcv
    unfold run_pipeline
    rw [norm_video_fail args env hex hvid hcv]
    exact ⟨rfl, by simp⟩
  · intro haud hwf hca
    unfold run_pipeline
    rw [norm_audio_fail args env hex haud hwf hca]
    constructor
    · simp only [enhanceStage_eq, pipelineTail_eq]
      refine ⟨⟨"AUDIO_PROCESSING", "WARNING",
               "Audio format conversion failed. Using original file."⟩, ?_, rfl, rfl⟩
      simp
    · intro hd ha hmi
      simp only [enhanceStage_eq, pipelineTail_eq]
      have haudio : enhanceAudio args env args.input_file = args.input_file := by
        unfold enhanceAudio
        rw [if_neg (by simp [hd, ha])]
      constructor
      · simp only [haudio, List.mem_append]
        unfold tailCalls
        rw [hmi]
        simp
      · refine ⟨⟨"TRANSCRIPTION", "INFO",
                 "Starting transcription of: " ++ (enhanceAudio args env args.input_file).name⟩,
                ?_, rfl⟩
        simp only [List.mem_append]
        unfold tailEvents
        rw [hmi]
        simp

/-- C2 witness: a concrete video run whose conversion fails returns the
error dict; a concrete mp3 run whose standardization fails logs the
warning and still hands the original mp3 path to transcription. -/
theorem C2_normalization_asymmetry_witness :
    (run_pipeline mp4Args envVideoConvFail).result
        = Except.ok [("error", PyValue.str "Video conversion failed")]
    ∧ (∃ ev ∈ (run_pipeline mp3Args envAudioConvFail).events,
        ev.stage = "AUDIO_PROCESSING" ∧ ev.severity = "WARNING")
    ∧ Call.transcribe mp3Args.input_file ∈ (run_pipeline mp3Args envAudioConvFail).calls :=
  ⟨((C2_normalization_asymmetry mp4Args envVideoConvFail rfl).1 (by decide) rfl).1,
   ((C2_normalization_asymmetry mp3Args envAudioConvFail rfl).2
      (by decide) (Or.inl (by decide)) rfl).1,
   (((C2_normalization_asymmetry mp3Args envAudioConvFail rfl).2
      (by decide) (Or.inl (by decide)) rfl).2 rfl rfl rfl).1⟩

/-- C10: extension support is case-insensitive: the suffix is lowercased
before the membership test, so an existing input whose suffix lowercases
into the supported set passes validation, and the run returns exactly the
same value as the run on the same path with the lowercased suffix. -/
theorem C10_case_insensitive (args : Args) (env : Env)
    (hex : env.fileExists = true)
    (hsup : pyLower args.input_file.suffix ∈ type_supported) :
    (∃ ev ∈ (run_pipeline args env).events,
        ev.stage = "FILE_VALIDATION" ∧ ev.severity = "SUCCESS")
    ∧ (run_pipeline args env).result
        = (run_pipeline
            { args with input_file :=
                { args.input_file with suffix := pyLower args.input_file.suffix } }
            env).result := by
  constructor
  · unfold run_pipeline
    rcases supported_split hsup with hvid | haud
    · cases hcv : env.convertVideo with
      | none =>
        rw [norm_video_fail args env hex hvid hcv]
        exact ⟨⟨"FILE_VALIDATION", "SUCCESS", "Input file validated"⟩, by simp, rfl, rfl⟩
      | some u =>
        rw [norm_video_ok args env u hex hvid hcv]
        simp only [enhanceStage_eq, pipelineTail_eq]
        exact ⟨⟨"FILE_VALIDATION", "SUCCESS", "Input file validated"⟩, by simp, rfl, rfl⟩
    · by_cases hwf : pyLower args.input_file.suffix ≠ ".wav" ∨ args.force_wav = true
      · cases hca : env.convertAudio with
        | none =>
          rw [norm_audio_fail args env hex haud hwf hca]
          simp only [enhanceStage_eq, pipelineTail_eq]
          exact ⟨⟨"FILE_VALIDATION", "SUCCESS", "Input file validated"⟩, by simp, rfl, rfl⟩
        | some u =>
          rw [norm_audio_ok args env u hex haud hwf hca]
          simp only [enhanceStage_eq, pipelineTail_eq]
          exact ⟨⟨"FILE_VALIDATION", "SUCCESS", "Input file validated"⟩, by simp, rfl, rfl⟩
      · push_neg at hwf
        rw [norm_wav_direct args env hex hwf.1 (by simpa using hwf.2)]
        simp only [enhanceStage_eq, pipelineTail_eq]
        exact ⟨⟨"FILE_VALIDATION", "SUCCESS", "Input file validated"⟩, by simp, rfl, rfl⟩
  · rw [run_result_eq, run_result_eq]
    unfold runResult
    have hfix : pyLower (pyLower args.input_file.suffix) = pyLower args.input_file.suffix :=
      supported_pyLower_fixed hsup
    simp [hex, hfix]

/-- C10 witness: the input talk.WAV validates and the run returns the same
value as on talk.wav. -/
theorem C10_case_insensitive_witness :
    (∃ ev ∈ (run_pipeline upperWavArgs happyEnv).events,
        ev.stage = "FILE_VALIDATION" ∧ ev.severity = "SUCCESS")
    ∧ (run_pipeline upperWavArgs happyEnv).result
        = (run_pipeline
            { upperWavArgs with input_file :=
                { upperWavArgs.input_file with suffix := pyLower upperWavArgs.input_file.suffix } }
            happyEnv).result :=
  C10_case_insensitive upperWavArgs happyEnv rfl (by decide)

theorem cleanupEvents_stage (l : List (Option String)) :
    ∀ ev ∈ cleanupEvents l, ev.stage = "CLEANUP" := by
  intro ev h
  unfold cleanupEvents at h
  rcases List.mem_filterMap.1 h with ⟨fe, hfe1, hfe2⟩
  cases hfe3 : fe.2 with
  | none => rw [hfe3] at hfe2; simp at hfe2
  | some e =>
    rw [hfe3] at hfe2
    simp only [Option.some.injEq] at hfe2
    rw [← hfe2]

theorem cleanupEvents_filter_self (l : List (Option String)) :
    (cleanupEvents l).filter (fun ev => decide (ev.stage = "CLEANUP")) = cleanupEvents l := by
  apply List.filter_eq_self.mpr
  intro ev h
  simp [cleanupEvents_stage l ev h]

theorem enhanceEvents_cleanup_filter (args : Args) (env : Env) :
    (enhanceEvents args env).filter (fun ev => decide (ev.stage = "CLEANUP")) = [] := by
  unfold enhanceEvents
  split
  · cases env.enhance <;> simp
  · simp

theorem tailEvents_cleanup_filter (env : Env) (audio : PyPath) :
    (tailEvents env audio).filter (fun ev => decide (ev.stage = "CLEANUP"))
      = match tailResult env with
        | Except.ok d =>
            if dictKeys d = success_keys then cleanupEvents env.cleanupFail else []
        | Except.error _ => [] := by
  unfold tailEvents tailResult
  cases hmi : env.modelInit with
  | error e => simp [dictKeys, success_keys]
  | ok u =>
    cases hw : Transcriber.transcribe env.whisperCall with
    | none => simp
    | some pr =>
      obtain ⟨result, detected⟩ := pr
      by_cases hres : result = ""
      · simp [hres, dictKeys, success_keys]
      · by_cases hlen : env.chunkText.length > 7 <;>
          simp [hres, hlen, successDict, dictKeys, success_keys,
                List.filter_append, cleanupEvents_filter_self]

theorem tailCalls_logged (env : Env) (audio : PyPath) (c : Call)
    (hc : c ∈ tailCalls env audio) (s : String) (hs : callStage c = some s) :
    ∃ ev ∈ tailEvents env audio, ev.stage = s := by
  unfold tailCalls at hc
  unfold tailEvents
  cases hmi : env.modelInit with
  | error e =>
    rw [hmi] at hc
    simp at hc
    subst hc
    simp [callStage] at hs
    subst hs
    simp
  | ok u =>
    rw [hmi] at hc
    cases hw : Transcriber.transcribe env.whisperCall with
    | none =>
      rw [hw] at hc
      simp at hc
      rcases hc with hc | hc <;> subst hc <;> simp [callStage] at hs <;> subst hs <;> simp
    | some pr =>
      rw [hw] at hc
      obtain ⟨result, detected⟩ := pr
      by_cases hres : result = ""
      · simp [hres] at hc
        rcases hc with hc | hc <;> subst hc <;> simp [callStage] at hs <;> subst hs <;>
          simp [hres]
      · by_cases hlen : env.chunkText.length > 7
        · simp [hres, hlen] at hc
          rcases hc with hc | hc | hc | hc | hc | hc | hc <;> subst hc <;>
            simp [callStage] at hs <;> subst hs <;> simp [hres, hlen]
        · simp [hres, hlen] at hc
          rcases hc with hc | hc | hc | hc | hc | hc <;> subst hc <;>
            simp [callStage] at hs <;> subst hs <;> simp [hres, hlen]

theorem enhanceCalls_logged (args : Args) (env : Env) (audio : PyPath) (c : Call)
    (hc : c ∈ enhanceCalls args audio) (s : String) (hs : callStage c = some s) :
    ∃ ev ∈ enhanceEvents args env, ev.stage = s := by
  unfold enhanceCalls at hc
  unfold enhanceEvents
  split at hc
  · simp at hc
    subst hc
    simp [callStage] at hs
    subst hs
    rw [if_pos ‹args.denoise = true ∨ args.aggressive_denoise = true›]
    cases env.enhance <;> simp
  · simp at hc

theorem statePart_logged (args : Args) (env : Env) (st : StageState)
    (hn : normalizeStage args env = Sum.inr st) (c : Call) (hc : c ∈ st.calls)
    (s : String) (hs : callStage c = some s) :
    ∃ ev ∈ st.events, ev.stage = s := by
  rcases norm_inr_cases args env st hn with h | h | h | h <;> subst h
  · simp [videoOkState, videoOutPath] at hc
    rcases hc with rfl | rfl
    · simp [callStage] at hs
    · simp [callStage] at hs
      subst hs
      simp [videoOkState, validatedEvents, initEvent]
  · simp [audioFailState, stdOutPath] at hc
    rcases hc with rfl | rfl
    · simp [callStage] at hs
    · simp [callStage] at hs
      subst hs
      simp [audioFailState, validatedEvents, initEvent]
  · simp [audioOkState, stdOutPath] at hc
    rcases hc with rfl | rfl
    · simp [callStage] at hs
    · simp [callStage] at hs
      subst hs
      simp [audioOkState, validatedEvents, initEvent]
  · simp [wavDirectState] at hc

theorem state_init_validation_clean (args : Args) (env : Env) (st : StageState)
    (hn : normalizeStage args env = Sum.inr st) :
    (∃ ev ∈ st.events, ev.stage = "INITIALIZATION")
    ∧ (∃ ev ∈ st.events, ev.stage = "FILE_VALIDATION")
    ∧ st.events.filter (fun ev => decide (ev.stage = "CLEANUP")) = [] := by
  rcases norm_inr_cases args env st hn with h | h | h | h <;> subst h <;>
    refine ⟨?_, ?_, ?_⟩ <;>
    simp [videoOkState, audioFailState, audioOkState, wavDirectState,
          validatedEvents, initEvent, videoOutPath, stdOutPath]

theorem cleanupEvents_index (l : List (Option String)) :
    ∀ ev ∈ cleanupEvents l, stageIndex ev.stage = 13 := by
  intro ev h
  rw [cleanupEvents_stage l ev h]
  decide

theorem cleanupEvents_ordered (l : List (Option String)) :
    List.Pairwise (fun a b : Event => stageIndex a.stage ≤ stageIndex b.stage)
      (cleanupEvents l) := by
  apply List.pairwise_of_forall_mem_list
  intro a ha b hb
  rw [cleanupEvents_index l a ha, cleanupEvents_index l b hb]

theorem pairwise_le_append_cleanup (l : List Event) (cl : List (Option String))
    (h1 : List.Pairwise (fun a b : Event => stageIndex a.stage ≤ stageIndex b.stage) l)
    (h2 : ∀ ev ∈ l, stageIndex ev.stage ≤ 13) :
    List.Pairwise (fun a b : Event => stageIndex a.stage ≤ stageIndex b.stage)
      (l ++ cleanupEvents cl) := by
  rw [List.pairwise_append]
  refine ⟨h1, cleanupEvents_ordered cl, ?_⟩
  intro a ha b hb
  rw [cleanupEvents_index cl b hb]
  exact h2 a ha

theorem enhanceEvents_index (args : Args) (env : Env) :
    ∀ ev ∈ enhanceEvents args env, stageIndex ev.stage = 4 := by
  intro ev h
  unfold enhanceEvents at h
  split at h
  · cases he : env.enhance <;> rw [he] at h <;> simp at h <;>
      rcases h with rfl | rfl <;> decide
  · simp at h
    subst h
    decide

theorem enhanceEvents_ordered (args : Args) (env : Env) :
    List.Pairwise (fun a b : Event => stageIndex a.stage ≤ stageIndex b.stage)
      (enhanceEvents args env) := by
  unfold enhanceEvents
  split
  · cases env.enhance <;> simp [stageIndex]
  · simp

theorem enhanceEvents_has_stage (args : Args) (env : Env) :
    ∃ ev ∈ enhanceEvents args env, ev.stage = "AUDIO_ENHANCEMENT" := by
  unfold enhanceEvents
  split
  · cases env.enhance <;> simp
  · simp

theorem tailEvents_ordered (env : Env) (audio : PyPath) :
    List.Pairwise (fun a b : Event => stageIndex a.stage ≤ stageIndex b.stage)
      (tailEvents env audio) := by
  cases hmi : env.modelInit with
  | error e =>
    have heq : tailEvents env audio =
        [⟨"MODEL_INIT", "INFO", "Initializing AI models"⟩,
         ⟨"MODEL_INIT", "ERROR", "Initialization error: " ++ e⟩] := by
      unfold tailEvents
      rw [hmi]
      simp
    rw [heq]
    simp [stageIndex]
  | ok u =>
    cases hw : Transcriber.transcribe env.whisperCall with
    | none =>
      have heq : tailEvents env audio =
          [⟨"MODEL_INIT", "INFO", "Initializing AI models"⟩,
           ⟨"MODEL_INIT", "SUCCESS", "AI models initialized successfully"⟩,
           ⟨"TRANSCRIPTION", "INFO", "Starting transcription of: " ++ audio.name⟩] := by
        unfold tailEvents
        rw [hmi, hw]
        simp
      rw [heq]
      simp [stageIndex]
    | some pr =>
      obtain ⟨result, detected⟩ := pr
      by_cases hres : result = ""
      · have heq : tailEvents env audio =
            [⟨"MODEL_INIT", "INFO", "Initializing AI models"⟩,
             ⟨"MODEL_INIT", "SUCCESS", "AI models initialized successfully"⟩,
             ⟨"TRANSCRIPTION", "INFO", "Starting transcription of: " ++ audio.name⟩,
             ⟨"TRANSCRIPTION", "ERROR", "Transcription failed"⟩] := by
          unfold tailEvents
          rw [hmi, hw]
          simp [hres]
        rw [heq]
        simp [stageIndex]
      · by_cases hlen : env.chunkText.length > 7
        · have heq : tailEvents env audio =
              [⟨"MODEL_INIT", "INFO", "Initializing AI models"⟩,
               ⟨"MODEL_INIT", "SUCCESS", "AI models initialized successfully"⟩,
               ⟨"TRANSCRIPTION", "INFO", "Starting transcription of: " ++ audio.name⟩,
               ⟨"TRANSCRIPTION", "SUCCESS", "Transcription completed"⟩,
               ⟨"CORRECTION", "INFO", "Applying language rule correction"⟩,
               ⟨"CORRECTION", "SUCCESS", "Language correction applied"⟩,
               ⟨"TEXT_PROCESSING", "INFO", "Starting text processing and summarization"⟩,
               ⟨"TEXT_CHUNKING", "SUCCESS", "Text split into chunks"⟩,
               ⟨"CLUSTERING", "INFO", "Clustering chunks by topic"⟩,
               ⟨"CLUSTERING", "SUCCESS", "Topic clustering completed"⟩,
               ⟨"SUMMARIZATION", "INFO", "Generating comprehensive summary"⟩,
               ⟨"SUMMARIZATION", "SUCCESS", "Final summary generated"⟩,
               ⟨"PIPELINE_COMPLETE", "SUCCESS", "Pipeline completed successfully"⟩]
              ++ cleanupEvents env.cleanupFail := by
            unfold tailEvents
            rw [hmi, hw]
            simp [hres, hlen]
          rw [heq]
          apply pairwise_le_append_cleanup
          · simp [stageIndex]
          · simp [stageIndex]
        · have heq : tailEvents env audio =
              [⟨"MODEL_INIT", "INFO", "Initializing AI models"⟩,
               ⟨"MODEL_INIT", "SUCCESS", "AI models initialized successfully"⟩,
               ⟨"TRANSCRIPTION", "INFO", "Starting transcription of: " ++ audio.name⟩,
               ⟨"TRANSCRIPTION", "SUCCESS", "Transcription completed"⟩,
               ⟨"CORRECTION", "INFO", "Applying language rule correction"⟩,
               ⟨"CORRECTION", "SUCCESS", "Language correction applied"⟩,
               ⟨"TEXT_PROCESSING", "INFO", "Starting text processing and summarization"⟩,
               ⟨"TEXT_CHUNKING", "SUCCESS", "Text split into chunks"⟩,
               ⟨"CLUSTERING", "INFO", "Few Chunks - no clustering needed"⟩,
               ⟨"SUMMARIZATION", "INFO", "Generating comprehensive summary"⟩,
               ⟨"SUMMARIZATION", "SUCCESS", "Final summary generated"⟩,
               ⟨"PIPELINE_COMPLETE", "SUCCESS", "Pipeline completed successfully"⟩]
              ++ cleanupEvents env.cleanupFail := by
            unfold tailEvents
            rw [hmi, hw]
            simp [hres, hlen]
          rw [heq]
          apply pairwise_le_append_cleanup
          · simp [stageIndex]
          · simp [stageIndex]

theorem tailEvents_index_lb (env : Env) (audio : PyPath) :
    ∀ ev ∈ tailEvents env audio, 5 ≤ stageIndex ev.stage := by
  intro ev h
  unfold tailEvents at h
  cases hmi : env.modelInit with
  | error e =>
    rw [hmi] at h
    simp at h
    rcases h with rfl | rfl <;> simp [stageIndex]
  | ok u =>
    rw [hmi] at h
    cases hw : Transcriber.transcribe env.whisperCall with
    | none =>
      rw [hw] at h
      simp at h
      rcases h with rfl | rfl | rfl <;> simp [stageIndex]
    | some pr =>
      rw [hw] at h
      obtain ⟨result, detected⟩ := pr
      by_cases hres : result = ""
      · simp [hres] at h
        rcases h with rfl | rfl | rfl | rfl <;> simp [stageIndex]
      · by_cases hlen : env.chunkText.length > 7 <;>
          simp [hres, hlen] at h
        · rcases h with rfl | rfl | rfl | rfl | rfl | rfl | rfl | rfl | rfl | rfl | rfl | rfl | rfl | hcl <;>
            first
              | (rw [cleanupEvents_index env.cleanupFail ev hcl]; decide)
              | simp [stageIndex]
        · rcases h with rfl | rfl | rfl | rfl | rfl | rfl | rfl | rfl | rfl | rfl | rfl | rfl | hcl <;>
            first
              | (rw [cleanupEvents_index env.cleanupFail ev hcl]; decide)
              | simp [stageIndex]

theorem state_events_ordered_bound (args : Args) (env : Env) (st : StageState)
    (hn : normalizeStage args env = Sum.inr st) :
    List.Pairwise (fun a b : Event => stageIndex a.stage ≤ stageIndex b.stage) st.events
    ∧ ∀ ev ∈ st.events, stageIndex ev.stage ≤ 3 := by
  rcases norm_inr_cases args env st hn with h | h | h | h <;> subst h <;>
    constructor <;>
    simp [videoOkState, audioFailState, audioOkState, wavDirectState,
          validatedEvents, initEvent, videoOutPath, stdOutPath, stageIndex]

theorem run_events_ordered (args : Args) (env : Env) :
    stageOrdered (run_pipeline args env).events := by
  unfold stageOrdered
  rcases run_pipeline_cases args env with ⟨out, hn, hr⟩ | ⟨st, hn, hr⟩
  · rcases norm_inl_cases args env out hn with h | h | h <;> subst h <;> rw [hr] <;>
      simp [notFoundOut, unsupportedOut, videoFailOut, validatedEvents, initEvent,
            videoOutPath, stageIndex]
  · rw [hr]
    have hst := state_events_ordered_bound args env st hn
    rw [List.pairwise_append]
    refine ⟨hst.1, ?_, ?_⟩
    · rw [List.pairwise_append]
      refine ⟨enhanceEvents_ordered args env, tailEvents_ordered env _, ?_⟩
      intro a ha b hb
      rw [enhanceEvents_index args env a ha]
      have hb2 := tailEvents_index_lb env _ b hb
      omega
    · intro a ha b hb
      have h1 := hst.2 a ha
      simp only [List.mem_append] at hb
      rcases hb with hb | hb
      · rw [enhanceEvents_index args env b hb]
        omega
      · have hb2 := tailEvents_index_lb env _ b hb
        omega

theorem tailCalls_chunkText_events (env : Env) (audio : PyPath)
    (h : Call.chunkText ∈ tailCalls env audio) :
    (∃ ev ∈ tailEvents env audio, ev.stage = "TEXT_PROCESSING")
    ∧ (∃ ev ∈ tailEvents env audio, ev.stage = "CLUSTERING")
    ∧ (∃ ev ∈ tailEvents env audio, ev.stage = "SUMMARIZATION") := by
  unfold tailCalls at h
  unfold tailEvents
  cases hmi : env.modelInit with
  | error e => rw [hmi] at h; simp at h
  | ok u =>
    rw [hmi] at h
    cases hw : Transcriber.transcribe env.whisperCall with
    | none => rw [hw] at h; simp at h
    | some pr =>
      rw [hw] at h
      obtain ⟨result, detected⟩ := pr
      by_cases hres : result = ""
      · simp [hres] at h
      · by_cases hlen : env.chunkText.length > 7 <;>
          exact ⟨by simp [hres, hlen], by simp [hres, hlen], by simp [hres, hlen]⟩

theorem validated_events_present (args : Args) (env : Env)
    (hex : env.fileExists = true)
    (hsup : pyLower args.input_file.suffix ∈ type_supported) :
    (∃ ev ∈ (run_pipeline args env).events, ev.stage = "AUDIO_CONVERSION")
    ∧ (pyLower args.input_file.suffix ∈ video_types →
        ∃ ev ∈ (run_pipeline args env).events, ev.stage = "VIDEO_PROCESSING")
    ∧ (pyLower args.input_file.suffix ∈ audio_types →
        ∃ ev ∈ (run_pipeline args env).events, ev.stage = "AUDIO_PROCESSING") := by
  unfold run_pipeline
  rcases supported_split hsup with hvid | haud
  · have hna : pyLower args.input_file.suffix ∉ audio_types :=
      fun h2 => audio_not_video h2 hvid
    cases hcv : env.convertVideo with
    | none =>
      rw [norm_video_fail args env hex hvid hcv]
      exact ⟨⟨⟨"AUDIO_CONVERSION", "INFO", "Starting audio format standardization"⟩,
              by simp, rfl⟩,
             fun _ => ⟨⟨"VIDEO_PROCESSING", "ERROR", "Video conversion failed"⟩, by simp, rfl⟩,
             fun h2 => absurd h2 hna⟩
    | some u =>
      rw [norm_video_ok args env u hex hvid hcv]
      simp only [enhanceStage_eq, pipelineTail_eq]
      exact ⟨⟨⟨"AUDIO_CONVERSION", "INFO", "Starting audio format standardization"⟩,
              by simp, rfl⟩,
             fun _ => ⟨⟨"VIDEO_PROCESSING", "SUCCESS", "Video converted to audio"⟩,
                       by simp, rfl⟩,
             fun h2 => absurd h2 hna⟩
  · have hnv := audio_not_video haud
    by_cases hwf : pyLower args.input_file.suffix ≠ ".wav" ∨ args.force_wav = true
    · cases hca : env.convertAudio with
      | none =>
        rw [norm_audio_fail args env hex haud hwf hca]
        simp only [enhanceStage_eq, pipelineTail_eq]
        exact ⟨⟨⟨"AUDIO_CONVERSION", "INFO", "Starting audio format standardization"⟩,
                by simp, rfl⟩,
               fun h2 => absurd h2 hnv,
               fun _ => ⟨⟨"AUDIO_PROCESSING", "WARNING",
                          "Audio format conversion failed. Using original file."⟩,
                         by simp, rfl⟩⟩
      | some u =>
        rw [norm_audio_ok args env u hex haud hwf hca]
        simp only [enhanceStage_eq, pipelineTail_eq]
        exact ⟨⟨⟨"AUDIO_CONVERSION", "INFO", "Starting audio format standardization"⟩,
                by simp, rfl⟩,
               fun h2 => absurd h2 hnv,
               fun _ => ⟨⟨"AUDIO_PROCESSING", "SUCCESS", "Audio format standardized"⟩,
                         by simp, rfl⟩⟩
    · push_neg at hwf
      rw [norm_wav_direct args env hex hwf.1 (by simpa using hwf.2)]
      simp only [enhanceStage_eq, pipelineTail_eq]
      exact ⟨⟨⟨"AUDIO_CONVERSION", "INFO", "Starting audio format standardization"⟩,
              by simp, rfl⟩,
             fun h2 => absurd h2 hnv,
             fun _ => ⟨⟨"AUDIO_PROCESSING", "INFO",
                        "Using WAV file directly: " ++ args.input_file.name⟩,
                       by simp, rfl⟩⟩

/-- C6 amended: every entered stage other than cleanup emits at least one
event bearing its stage name — each collaborator call made by the run is
covered by an event of the stage that logs it, the initialization and
validation stages always log, the normalization stages log whenever
validation passes (the audio branch also in its direct-wav form, which
makes no call), the enhancement gate logs whenever the run goes on to
model initialization, and the text-processing, clustering (also when
skipped) and summarization stages log whenever chunking is reached — and
the event stream is emitted in pipeline-stage order, so the outcome events
of a stage are recorded before any later stage logs; the cleanup stage,
however, emits one CLEANUP warning per transient folder whose deletion
raised and nothing otherwise, so a run whose cleanup succeeds logs no
CLEANUP event at all. -/
theorem C6_stage_logging (args : Args) (env : Env) :
    (∀ c ∈ (run_pipeline args env).calls, ∀ s, callStage c = some s →
        ∃ ev ∈ (run_pipeline args env).events, ev.stage = s)
    ∧ (∃ ev ∈ (run_pipeline args env).events, ev.stage = "INITIALIZATION")
    ∧ (∃ ev ∈ (run_pipeline args env).events, ev.stage = "FILE_VALIDATION")
    ∧ (cleanupLogged (run_pipeline args env)
        = match (run_pipeline args env).result with
          | Except.ok d =>
              if dictKeys d = success_keys then cleanupEvents env.cleanupFail else []
          | Except.error _ => [])
    ∧ (env.fileExists = true → pyLower args.input_file.suffix ∈ type_supported →
        (∃ ev ∈ (run_pipeline args env).events, ev.stage = "AUDIO_CONVERSION")
        ∧ (pyLower args.input_file.suffix ∈ video_types →
            ∃ ev ∈ (run_pipeline args env).events, ev.stage = "VIDEO_PROCESSING")
        ∧ (pyLower args.input_file.suffix ∈ audio_types →
            ∃ ev ∈ (run_pipeline args env).events, ev.stage = "AUDIO_PROCESSING"))
    ∧ (Call.modelInit ∈ (run_pipeline args env).calls →
        ∃ ev ∈ (run_pipeline args env).events, ev.stage = "AUDIO_ENHANCEMENT")
    ∧ (Call.chunkText ∈ (run_pipeline args env).calls →
        (∃ ev ∈ (run_pipeline args env).events, ev.stage = "TEXT_PROCESSING")
        ∧ (∃ ev ∈ (run_pipeline args env).events, ev.stage = "CLUSTERING")
        ∧ (∃ ev ∈ (run_pipeline args env).events, ev.stage = "SUMMARIZATION"))
    ∧ stageOrdered (run_pipeline args env).events := by
  have base : (∀ c ∈ (run_pipeline args env).calls, ∀ s, callStage c = some s →
        ∃ ev ∈ (run_pipeline args env).events, ev.stage = s)
      ∧ (∃ ev ∈ (run_pipeline args env).events, ev.stage = "INITIALIZATION")
      ∧ (∃ ev ∈ (run_pipeline args env).events, ev.stage = "FILE_VALIDATION")
      ∧ (cleanupLogged (run_pipeline args env)
          = match (run_pipeline args env).result with
            | Except.ok d =>
                if dictKeys d = success_keys then cleanupEvents env.cleanupFail else []
            | Except.error _ => []) := by
    rcases run_pipeline_cases args env with ⟨out, hn, hr⟩ | ⟨st, hn, hr⟩
    · rcases norm_inl_cases args env out hn with h | h | h <;> subst h <;> rw [hr]
      · refine ⟨?_, ?_, ?_, ?_⟩
        · intro c hc s hs
          simp [notFoundOut] at hc
        · simp [notFoundOut, initEvent]
        · simp [notFoundOut, initEvent]
        · simp [cleanupLogged, notFoundOut, initEvent, dictKeys, success_keys]
      · refine ⟨?_, ?_, ?_, ?_⟩
        · intro c hc s hs
          simp [unsupportedOut] at hc
        · simp [unsupportedOut, initEvent]
        · simp [unsupportedOut, initEvent]
        · simp [cleanupLogged, unsupportedOut, initEvent, dictKeys, success_keys]
      · refine ⟨?_, ?_, ?_, ?_⟩
        · intro c hc s hs
          simp [videoFailOut, videoOutPath] at hc
          rcases hc with rfl | rfl
          · simp [callStage] at hs
          · simp [callStage] at hs
            subst hs
            simp [videoFailOut, validatedEvents, initEvent]
        · simp [videoFailOut, validatedEvents, initEvent]
        · simp [videoFailOut, validatedEvents, initEvent]
        · simp [cleanupLogged, videoFailOut, validatedEvents, initEvent, dictKeys, success_keys]
    · have hiv := state_init_validation_clean args env st hn
      rw [hr]
      refine ⟨?_, ?_, ?_, ?_⟩
      · intro c hc s hs
        simp only [List.mem_append] at hc
        rcases hc with hc | hc | hc
        · rcases statePart_logged args env st hn c hc s hs with ⟨ev, hev, hev2⟩
          exact ⟨ev, by simp only [List.mem_append]; exact Or.inl hev, hev2⟩
        · rcases enhanceCalls_logged args env st.audio_path c hc s hs with ⟨ev, hev, hev2⟩
          exact ⟨ev, by simp only [List.mem_append]; exact Or.inr (Or.inl hev), hev2⟩
        · rcases tailCalls_logged env (enhanceAudio args env st.audio_path) c hc s hs
            with ⟨ev, hev, hev2⟩
          exact ⟨ev, by simp only [List.mem_append]; exact Or.inr (Or.inr hev), hev2⟩
      · rcases hiv.1 with ⟨ev, hev, hev2⟩
        exact ⟨ev, by simp only [List.mem_append]; exact Or.inl hev, hev2⟩
      · rcases hiv.2.1 with ⟨ev, hev, hev2⟩
        exact ⟨ev, by simp only [List.mem_append]; exact Or.inl hev, hev2⟩
      · simp only [cleanupLogged, List.filter_append, hiv.2.2,
                   enhanceEvents_cleanup_filter, tailEvents_cleanup_filter,
                   List.nil_append]
  refine ⟨base.1, base.2.1, base.2.2.1, base.2.2.2, ?_, ?_, ?_, run_events_ordered args env⟩
  · intro hex hsup
    exact validated_events_present args env hex hsup
  · intro hmc
    rcases run_pipeline_cases args env with ⟨out, hn, hr⟩ | ⟨st, hn, hr⟩
    · rcases norm_inl_cases args env out hn with h | h | h <;> subst h <;> rw [hr] at hmc <;>
        simp [notFoundOut, unsupportedOut, videoFailOut, videoOutPath] at hmc
    · rw [hr]
      rcases enhanceEvents_has_stage args env with ⟨ev, hev, hev2⟩
      exact ⟨ev, by simp only [List.mem_append]; exact Or.inr (Or.inl hev), hev2⟩
  · intro hct
    rcases run_pipeline_cases args env with ⟨out, hn, hr⟩ | ⟨st, hn, hr⟩
    · rcases norm_inl_cases args env out hn with h | h | h <;> subst h <;> rw [hr] at hct <;>
        simp [notFoundOut, unsupportedOut, videoFailOut, videoOutPath] at hct
    · rw [hr] at hct ⊢
      simp only [List.mem_append] at hct
      rcases hct with hct | hct | hct
      · rcases norm_calls_shape args env st hn _ hct with h1 | ⟨p, q, h1⟩ | ⟨p, q, h1⟩ <;>
          simp at h1
      · rcases enhanceCalls_shape args st.audio_path _ hct with ⟨p, b, h1⟩
        simp at h1
      · have h3 := tailCalls_chunkText_events env (enhanceAudio args env st.audio_path) hct
        refine ⟨?_, ?_, ?_⟩
        · rcases h3.1 with ⟨ev, hev, hev2⟩
          exact ⟨ev, by simp only [List.mem_append]; exact Or.inr (Or.inr hev), hev2⟩
        · rcases h3.2.1 with ⟨ev, hev, hev2⟩
          exact ⟨ev, by simp only [List.mem_append]; exact Or.inr (Or.inr hev), hev2⟩
        · rcases h3.2.2 with ⟨ev, hev, hev2⟩
          exact ⟨ev, by simp only [List.mem_append]; exact Or.inr (Or.inr hev), hev2⟩

/-- C6 counterexample: a fully successful concrete run whose cleanup
deletions all succeed reaches and performs the cleanup stage (the run
completes and returns the success shape) yet logs no event named
CLEANUP. -/
theorem C6_cleanup_unlogged :
    (∃ d, (run_pipeline wavArgs happyEnv).result = Except.ok d ∧ dictKeys d = success_keys)
    ∧ Call.save ∈ (run_pipeline wavArgs happyEnv).calls
    ∧ ∀ ev ∈ (run_pipeline wavArgs happyEnv).events, ev.stage ≠ "CLEANUP" := by
  refine ⟨⟨[("summary", PyValue.str "final"),
            ("transcript", PyValue.str "hello world."),
            ("detected_language", PyValue.str "en"),
            ("chunks", PyValue.strList ["hello world"]),
            ("cluster_summaries", PyValue.strList ["sum"])], rfl, rfl⟩, by decide, by decide⟩

/-- C6 witness: on a concrete successful run, the transcription call is
covered by a TRANSCRIPTION event, the initialization stage logged, and the
all-successful cleanup logged nothing. -/
theorem C6_stage_logging_witness :
    (∃ ev ∈ (run_pipeline wavArgs happyEnv).events, ev.stage = "TRANSCRIPTION")
    ∧ (∃ ev ∈ (run_pipeline wavArgs happyEnv).events, ev.stage = "INITIALIZATION") :=
  ⟨(C6_stage_logging wavArgs happyEnv).1 (Call.transcribe ⟨"", "talk", ".wav"⟩)
      (by decide) "TRANSCRIPTION" rfl,
   (C6_stage_logging wavArgs happyEnv).2.1⟩
